import Mathlib

/-!
Shallow embedding of the reformulated EIR chiller performance core from
`src/EnergyPlus/ChillerReformulatedEIR.cc`: the single-point evaluator
`CalcReformEIRChillerModel`, the condenser-temperature solver
`ControlReformEIRChillerModel`, the heat-recovery split
`ReformEIRChillerHeatRecovery`, and the boundary validator
`CheckMinMaxCurveBoundaries`.

`Real64` is modelled as `ℚ`.  External collaborators (the curve evaluator,
the plant/flow adapter, fluid properties, the fault adapters, schedules and
the generic root finder) are not part of this module's source; they are
supplied as parameters through `PlantEnv` and `RootFinderOracle`.  The
chiller is always water cooled (`CondenserType = WaterCooled` is the only
value GetInput ever assigns, line 358), so the `CondenserType == WaterCooled`
tests in the source are taken as true.

Each evaluation additionally returns a `CalcTrace` recording the
denominators of the divisions the run actually executed (restricted to
denominators that are mass flow rates, heat-capacity rates or temperature
differences), the severe/fatal diagnostics raised, and the part-load ratio
from which the cycling ratio was derived.
-/

namespace ChillerReformulatedEIR

set_option maxHeartbeats 1600000

/-- Part-load curve variant tag (source lines 129-130). -/
inductive PLRCurveType where
  | leavingCondenserWaterTemperature
  | lift
deriving DecidableEq, Repr

/-- Chiller flow control mode. -/
inductive FlowModeType where
  | constantFlow
  | notModulated
  | leavingSetPointModulated
deriving DecidableEq, Repr

/-- Plant loop demand calculation scheme. -/
inductive LoopScheme where
  | singleSetPoint
  | dualSetPointDeadBand
deriving DecidableEq, Repr

/-- Immutable per-chiller configuration (the fields of `ElecReformEIRChiller`
read by the solver/evaluator/validator core). -/
structure ChillerSpec where
  RefCap : ℚ
  RefCOP : ℚ
  TempRefEvapOut : ℚ
  TempRefCondOut : ℚ
  TempLowLimitEvapOut : ℚ
  MinPartLoadRat : ℚ
  MaxPartLoadRat : ℚ
  MinUnloadRat : ℚ
  CompPowerToCondenserFrac : ℚ
  EvapMassFlowRateMax : ℚ
  CondMassFlowRateMax : ℚ
  PartLoadCurveType : PLRCurveType
  FlowMode : FlowModeType
  HeatRecActive : Bool
  HeatRecCapacityFraction : ℚ
  hasHeatRecSetPointNode : Bool
  hasHeatRecInletLimitSched : Bool
  FaultyChillerFoulingFlag : Bool
  FaultyChillerSWTFlag : Bool
  ChillerCAPFTXTempMin : ℚ
  ChillerCAPFTXTempMax : ℚ
  ChillerCAPFTYTempMin : ℚ
  ChillerCAPFTYTempMax : ℚ
  ChillerEIRFTXTempMin : ℚ
  ChillerEIRFTXTempMax : ℚ
  ChillerEIRFTYTempMin : ℚ
  ChillerEIRFTYTempMax : ℚ
  ChillerEIRFPLRTempMin : ℚ
  ChillerEIRFPLRTempMax : ℚ
  ChillerEIRFPLRPLRMin : ℚ
  ChillerEIRFPLRPLRMax : ℚ

/-- Overall heat-recovery capacity limit, set once at initialization
(`InitElecReformEIRChiller`, source lines 984-987). -/
def ChillerSpec.HeatRecMaxCapacityLimit (s : ChillerSpec) : ℚ :=
  s.HeatRecCapacityFraction * (s.RefCap + s.RefCap / s.RefCOP)

/-- Mutable per-chiller record, overwritten by every evaluation call. -/
structure ChillerState where
  ChillerPartLoadRatio : ℚ
  ChillerCyclingRatio : ℚ
  ChillerFalseLoadRate : ℚ
  EvapMassFlowRate : ℚ
  CondMassFlowRate : ℚ
  Power : ℚ
  QCondenser : ℚ
  QEvaporator : ℚ
  QHeatRecovery : ℚ
  EvapOutletTemp : ℚ
  CondOutletTemp : ℚ
  HeatRecOutletTemp : ℚ
  ChillerCondAvgTemp : ℚ
  ChillerCapFT : ℚ
  ChillerEIRFT : ℚ
  ChillerEIRFPLR : ℚ
  PossibleSubcooling : Bool
  FaultyChillerFoulingFactor : ℚ
  FaultyChillerSWTOffset : ℚ
  DeltaTErrCount : ℕ
  ChillerCapFTError : ℕ
  ChillerEIRFTError : ℕ
  ChillerEIRFPLRError : ℕ
  CAPFTXIter : ℕ
  EIRFTXIter : ℕ
  CAPFTYIter : ℕ
  EIRFTYIter : ℕ
  EIRFPLRTIter : ℕ
  EIRFPLRPLRIter : ℕ
  IterLimitExceededNum : ℕ
  IterFailed : ℕ

/-- Boundary conditions and external collaborators for one evaluation call:
node temperatures/flows/setpoints, plant loop flags, fluid specific heats,
the flow resolver, the fault adapters, schedule values, the performance
curves and the external numeric constants. -/
structure PlantEnv where
  condInletTemp : ℚ
  condInletMassFlow : ℚ
  evapInletTemp : ℚ
  evapInletMassFlow : ℚ
  evapInletMassFlowRateMaxAvail : ℚ
  evapOutletNodeTemp : ℚ
  evapOutletNodeTempMin : ℚ
  evapOutletHasSetPoint : Bool
  evapOutletTempSetPoint : ℚ
  evapOutletHasSetPointHi : Bool
  evapOutletTempSetPointHi : ℚ
  loopTempSetPoint : ℚ
  loopTempSetPointHi : ℚ
  loopDemandCalcScheme : LoopScheme
  hrLoopDemandCalcScheme : LoopScheme
  curOpSchemeCompSetPtBased : Bool
  flowLocked : Bool
  condCompSeriesActive : Bool
  resolveEvapFlow : ℚ → ℚ
  resolveCondFlow : ℚ → ℚ
  cpEvap : ℚ
  cpCond : ℚ
  cpHeatRec : ℚ
  heatRecInletTemp : ℚ
  heatRecMassFlowRate : ℚ
  heatRecNodeSetPoint : ℚ
  heatRecNodeSetPointHi : ℚ
  heatRecInletLimitSchedValue : ℚ
  warmupFlag : Bool
  doingSizing : Bool
  kickOffSimulation : Bool
  foulingFactor : ℚ
  swtOffsetAct : ℚ
  calFaultChillerSWT : Bool → ℚ → ℚ → ℚ → ℚ → ℚ → ℚ → ℚ × ℚ × ℚ
  massFlowTolerance : ℚ
  smallLoad : ℚ
  deltaTempTol : ℚ
  ctrlSeriesActive : ℤ
  capFT : ℚ → ℚ → ℚ
  eirFT : ℚ → ℚ → ℚ
  eirFPLR2 : ℚ → ℚ → ℚ
  eirFPLR3 : ℚ → ℚ → ℚ → ℚ

/-- ObjexxFCL `sign(x, y)`: magnitude of `x` with the sign of `y`. -/
def fsign (x y : ℚ) : ℚ := if y < 0 then -|x| else |x|

/-- Evaporator-outlet temperature setpoint selection (source lines
2050-2074; duplicated verbatim at lines 2652-2677). -/
def resolvedEvapSetPoint (spec : ChillerSpec) (env : PlantEnv) : ℚ :=
  match env.loopDemandCalcScheme with
  | LoopScheme.singleSetPoint =>
      if spec.FlowMode = FlowModeType.leavingSetPointModulated ∨
          env.curOpSchemeCompSetPtBased ∨ env.evapOutletHasSetPoint then
        env.evapOutletTempSetPoint
      else
        env.loopTempSetPoint
  | LoopScheme.dualSetPointDeadBand =>
      if spec.FlowMode = FlowModeType.leavingSetPointModulated ∨
          env.curOpSchemeCompSetPtBased ∨ env.evapOutletHasSetPointHi then
        env.evapOutletTempSetPointHi
      else
        env.loopTempSetPointHi

/-- Result of the heat-recovery split. -/
structure HeatRecResult where
  QCond : ℚ
  QHeatRec : ℚ
  HeatRecOutletTemp : ℚ
  divisors : List ℚ

/-- Heat recovered from the chiller condenser
(`ReformEIRChillerHeatRecovery`, source lines 1732-1812).  `QCond` is the
total condenser load entering the split; the returned `QCond` is the
adjusted condenser load `QTotal - QHeatRec`. -/
def ReformEIRChillerHeatRecovery (spec : ChillerSpec) (env : PlantEnv)
    (QCond CondMassFlow CondInletTemp : ℚ) : HeatRecResult :=
  let HeatRecInletTemp := env.heatRecInletTemp
  let HeatRecMassFlowRate := env.heatRecMassFlowRate
  let CpHeatRec := env.cpHeatRec
  let CpCond := env.cpCond
  let QTotal := QCond
  let bundle :=
    if spec.hasHeatRecSetPointNode = false then
      -- original algorithm that blends temps (lines 1765-1774)
      let TAvgIn := (HeatRecMassFlowRate * CpHeatRec * HeatRecInletTemp +
          CondMassFlow * CpCond * CondInletTemp) /
          (HeatRecMassFlowRate * CpHeatRec + CondMassFlow * CpCond)
      let TAvgOut := QTotal /
          (HeatRecMassFlowRate * CpHeatRec + CondMassFlow * CpCond) + TAvgIn
      let q0 := HeatRecMassFlowRate * CpHeatRec * (TAvgOut - HeatRecInletTemp)
      let q1 := max q0 0
      let q2 := min q1 spec.HeatRecMaxCapacityLimit
      (q2, [HeatRecMassFlowRate * CpHeatRec + CondMassFlow * CpCond,
            HeatRecMassFlowRate * CpHeatRec + CondMassFlow * CpCond])
    else
      -- new algorithm to meet setpoint (lines 1775-1794)
      let THeatRecSetPoint :=
        match env.hrLoopDemandCalcScheme with
        | LoopScheme.singleSetPoint => env.heatRecNodeSetPoint
        | LoopScheme.dualSetPointDeadBand => env.heatRecNodeSetPointHi
      let QHeatRecToSetPoint :=
        HeatRecMassFlowRate * CpHeatRec * (THeatRecSetPoint - HeatRecInletTemp)
      let QHeatRecToSetPoint := max QHeatRecToSetPoint 0
      let q1 := min QTotal QHeatRecToSetPoint
      let q2 := min q1 spec.HeatRecMaxCapacityLimit
      (q2, [])
  let QHeatRec := bundle.1
  -- inlet-temperature high-limit schedule (lines 1796-1802)
  let QHeatRec :=
    if spec.hasHeatRecInletLimitSched ∧
        HeatRecInletTemp > env.heatRecInletLimitSchedValue then 0
    else QHeatRec
  let QCondOut := QTotal - QHeatRec
  -- new heat recovery coil outlet temp (lines 1806-1811)
  if HeatRecMassFlowRate > 0 then
    { QCond := QCondOut, QHeatRec := QHeatRec,
      HeatRecOutletTemp := QHeatRec / (HeatRecMassFlowRate * CpHeatRec) + HeatRecInletTemp,
      divisors := bundle.2 ++ [HeatRecMassFlowRate * CpHeatRec] }
  else
    { QCond := QCondOut, QHeatRec := QHeatRec,
      HeatRecOutletTemp := HeatRecInletTemp,
      divisors := bundle.2 }

/-- Trace of one evaluation call: the denominators of executed divisions
whose denominator is a mass flow rate, a heat-capacity rate or a
temperature difference; counts of severe/fatal errors and warnings; and the
part-load ratio the cycling-ratio computation was based on (flow-locked
branch only). -/
structure CalcTrace where
  divisors : List ℚ
  severeErrors : ℕ
  fatalErrors : ℕ
  warnings : ℕ
  plrForFrac : Option ℚ

/-- Empty trace. -/
def CalcTrace.empty : CalcTrace :=
  { divisors := [], severeErrors := 0, fatalErrors := 0, warnings := 0, plrForFrac := none }

/-- Result of one `CalcReformEIRChillerModel` call: the overwritten state,
the (by-reference, possibly reset) operating load, and the trace. -/
structure CalcResult where
  state : ChillerState
  myLoad : ℚ
  trace : CalcTrace

/-- Outcome of the evaporator-side flow-lock branch of the evaluator
(source lines 2151-2387). -/
structure EvapOut where
  st : ChillerState
  PartLoadRat : ℚ
  FRAC : ℚ
  abortFlowZero : Bool
  divisors : List ℚ
  warnings : ℕ
  plrForFrac : Option ℚ

/-- Evaporator side when the outer plant solver has NOT locked flow
(`FlowLock == 0`, source lines 2153-2267).  `st` already carries
`QEvaporator = AvailChillerCap * PartLoadRat` and the stored part-load
ratio from lines 2149-2150. -/
def evapUnlocked (spec : ChillerSpec) (env : PlantEnv) (st : ChillerState)
    (Cp AvailChillerCap PartLoadRat : ℚ) (swtOn : Bool) : EvapOut :=
  -- lines 2154-2158
  let st := { st with PossibleSubcooling := !env.curOpSchemeCompSetPtBased }
  let core : ChillerState × ℚ × List ℚ × ℕ :=
    if spec.FlowMode = FlowModeType.constantFlow ∨
        spec.FlowMode = FlowModeType.notModulated then
      -- lines 2163-2180: request design flow, let the resolver decide
      let flow := env.resolveEvapFlow spec.EvapMassFlowRateMax
      let EvapDeltaTemp := if flow ≠ 0 then st.QEvaporator / flow / Cp else 0
      let divs : List ℚ := if flow ≠ 0 then [flow] else []
      ({ st with
          EvapMassFlowRate := flow
          EvapOutletTemp := env.evapInletTemp - EvapDeltaTemp },
       PartLoadRat, divs, (0 : ℕ))
    else
      -- lines 2181-2246: leaving-setpoint-modulated flow
      let EvapDeltaTemp :=
        match env.loopDemandCalcScheme with
        | LoopScheme.singleSetPoint =>
            env.evapInletTemp - env.evapOutletTempSetPoint
        | LoopScheme.dualSetPointDeadBand =>
            env.evapInletTemp - env.evapOutletTempSetPointHi
      if EvapDeltaTemp ≠ 0 then
        let flow0 := max 0 (st.QEvaporator / Cp / EvapDeltaTemp)
        let st := if flow0 - spec.EvapMassFlowRateMax > env.massFlowTolerance
                  then { st with PossibleSubcooling := true } else st
        let flow := env.resolveEvapFlow (min spec.EvapMassFlowRateMax flow0)
        let outlet :=
          match env.loopDemandCalcScheme with
          | LoopScheme.singleSetPoint => env.evapOutletTempSetPoint
          | LoopScheme.dualSetPointDeadBand => env.evapOutletTempSetPointHi
        ({ st with
            EvapMassFlowRate := flow
            EvapOutletTemp := outlet
            QEvaporator := max 0 (flow * Cp * EvapDeltaTemp) },
         PartLoadRat, [EvapDeltaTemp], (0 : ℕ))
      else
        -- lines 2217-2245: degenerate setpoint-equals-inlet condition
        let flow := env.resolveEvapFlow 0
        let st := { st with
            EvapMassFlowRate := flow
            EvapOutletTemp := env.evapInletTemp
            QEvaporator := 0
            ChillerPartLoadRatio := 0 }
        if st.DeltaTErrCount < 1 ∧ env.warmupFlag = false then
          ({ st with DeltaTErrCount := st.DeltaTErrCount + 1 },
           (0 : ℚ), ([] : List ℚ), (1 : ℕ))
        else if env.warmupFlag = false then
          ({ st with ChillerCapFTError := st.ChillerCapFTError + 1 },
           (0 : ℚ), ([] : List ℚ), (1 : ℕ))
        else
          (st, (0 : ℚ), ([] : List ℚ), (0 : ℕ))
  let st := core.1
  let plr := core.2.1
  let divs := core.2.2.1
  let warns := core.2.2.2
  -- supply-water-temperature sensor fault (lines 2249-2267)
  if swtOn = true ∧ st.EvapMassFlowRate > 0 then
    let vf : Bool := decide (spec.FlowMode = FlowModeType.leavingSetPointModulated)
    let out := env.calFaultChillerSWT vf st.FaultyChillerSWTOffset Cp
        env.evapInletTemp st.EvapOutletTemp st.EvapMassFlowRate st.QEvaporator
    let st := { st with
        EvapOutletTemp := out.1
        EvapMassFlowRate := out.2.1
        QEvaporator := out.2.2 }
    let plr1 := if AvailChillerCap > 0 then st.QEvaporator / AvailChillerCap else 0
    let plr2 := max 0 (min plr1 spec.MaxPartLoadRat)
    { st := { st with ChillerPartLoadRatio := plr2 }, PartLoadRat := plr2,
      FRAC := 1, abortFlowZero := false, divisors := divs, warnings := warns,
      plrForFrac := none }
  else
    { st := st, PartLoadRat := plr, FRAC := 1, abortFlowZero := false,
      divisors := divs, warnings := warns, plrForFrac := none }

/-- Initial locked-flow evaporator heat/outlet (source lines 2286-2294):
drive at the full requested load when subcooling is possible, otherwise use
the setpoint-implied temperature difference. -/
def lockedInitQEvap (env : PlantEnv) (Cp myLoad EvapOutletTempSetPoint : ℚ)
    (st : ChillerState) : ChillerState × List ℚ :=
  if st.PossibleSubcooling then
    ({ st with
        QEvaporator := |myLoad|
        EvapOutletTemp := env.evapInletTemp - |myLoad| / st.EvapMassFlowRate / Cp },
     [st.EvapMassFlowRate])
  else
    ({ st with
        QEvaporator := max 0 (st.EvapMassFlowRate * Cp *
          (env.evapInletTemp - EvapOutletTempSetPoint))
        EvapOutletTemp := EvapOutletTempSetPoint },
     ([] : List ℚ))

/-- Low evaporator temperature limit clamp (source lines 2295-2305). -/
def lockedLowLimitClamp (spec : ChillerSpec) (env : PlantEnv) (Cp : ℚ)
    (st : ChillerState) : ChillerState :=
  if st.EvapOutletTemp < spec.TempLowLimitEvapOut then
    if env.evapInletTemp - spec.TempLowLimitEvapOut > env.deltaTempTol then
      { st with
          EvapOutletTemp := spec.TempLowLimitEvapOut
          QEvaporator := st.EvapMassFlowRate * Cp *
            (env.evapInletTemp - spec.TempLowLimitEvapOut) }
    else
      { st with
          EvapOutletTemp := env.evapInletTemp
          QEvaporator := st.EvapMassFlowRate * Cp *
            (env.evapInletTemp - env.evapInletTemp) }
  else st

/-- Outlet-node minimum temperature clamp (source lines 2306-2316). -/
def lockedNodeMinClamp (env : PlantEnv) (Cp : ℚ) (st : ChillerState) : ChillerState :=
  if st.EvapOutletTemp < env.evapOutletNodeTempMin then
    if env.evapInletTemp - env.evapOutletNodeTempMin > env.deltaTempTol then
      { st with
          EvapOutletTemp := env.evapOutletNodeTempMin
          QEvaporator := st.EvapMassFlowRate * Cp *
            (env.evapInletTemp - env.evapOutletNodeTempMin) }
    else
      { st with
          EvapOutletTemp := env.evapInletTemp
          QEvaporator := st.EvapMassFlowRate * Cp *
            (env.evapInletTemp - env.evapInletTemp) }
  else st

/-- Cannot-exceed-requested-load clamp (source lines 2317-2327). -/
def lockedLoadClamp (env : PlantEnv) (Cp myLoad : ℚ)
    (st : ChillerState) : ChillerState × List ℚ :=
  if st.QEvaporator > |myLoad| then
    if st.EvapMassFlowRate > env.massFlowTolerance then
      ({ st with
          QEvaporator := |myLoad|
          EvapOutletTemp := env.evapInletTemp - |myLoad| / st.EvapMassFlowRate / Cp },
       [st.EvapMassFlowRate])
    else
      ({ st with
          QEvaporator := 0
          EvapOutletTemp := env.evapInletTemp },
       ([] : List ℚ))
  else (st, ([] : List ℚ))

/-- Supply-water-temperature sensor fault override in the locked branch
(source lines 2329-2344, `VarFlowFlag = false`). -/
def lockedSWTFault (env : PlantEnv) (Cp : ℚ) (swtOn : Bool)
    (st : ChillerState) : ChillerState :=
  if swtOn = true ∧ st.EvapMassFlowRate > 0 then
    let out := env.calFaultChillerSWT false st.FaultyChillerSWTOffset Cp
        env.evapInletTemp st.EvapOutletTemp st.EvapMassFlowRate st.QEvaporator
    { st with
        EvapOutletTemp := out.1
        EvapMassFlowRate := out.2.1
        QEvaporator := out.2.2 }
  else st

/-- Cannot-exceed-available-capacity clamp (source lines 2346-2357). -/
def lockedMachineClamp (spec : ChillerSpec) (env : PlantEnv) (Cp AvailChillerCap : ℚ)
    (st : ChillerState) : ChillerState × List ℚ :=
  if st.QEvaporator > AvailChillerCap * spec.MaxPartLoadRat then
    if st.EvapMassFlowRate > env.massFlowTolerance then
      ({ st with
          QEvaporator := AvailChillerCap * spec.MaxPartLoadRat
          EvapOutletTemp := env.evapInletTemp -
            AvailChillerCap * spec.MaxPartLoadRat / st.EvapMassFlowRate / Cp },
       [st.EvapMassFlowRate])
    else
      ({ st with
          QEvaporator := 0
          EvapOutletTemp := env.evapInletTemp },
       ([] : List ℚ))
  else (st, ([] : List ℚ))

/-- Locked-branch part-load ratio, cycling fraction and false load
(source lines 2359-2385). -/
def lockedFinish (spec : ChillerSpec) (env : PlantEnv) (AvailChillerCap : ℚ)
    (divs : List ℚ) (st : ChillerState) : EvapOut :=
  let plr := if AvailChillerCap > 0 then
      max 0 (min (st.QEvaporator / AvailChillerCap) spec.MaxPartLoadRat) else 0
  let FRAC := if plr < spec.MinPartLoadRat then min 1 (plr / spec.MinPartLoadRat) else 1
  let st := { st with ChillerCyclingRatio := FRAC }
  let plr2 := if AvailChillerCap > 0 then max plr spec.MinUnloadRat else 0
  let st := { st with ChillerPartLoadRatio := plr2 }
  let fl := AvailChillerCap * plr2 * FRAC - st.QEvaporator
  let st := { st with ChillerFalseLoadRate := if fl < env.smallLoad then 0 else fl }
  { st := st, PartLoadRat := plr2, FRAC := FRAC, abortFlowZero := false,
    divisors := divs, warnings := 0, plrForFrac := some plr }

/-- Evaporator side when the outer plant solver HAS locked flow
(`FlowLock == 1`, source lines 2269-2387). -/
def evapLocked (spec : ChillerSpec) (env : PlantEnv) (st : ChillerState)
    (Cp AvailChillerCap myLoad EvapOutletTempSetPoint : ℚ) (swtOn : Bool) : EvapOut :=
  -- lines 2270-2282
  let st := { st with EvapMassFlowRate := env.resolveEvapFlow env.evapInletMassFlow }
  if st.EvapMassFlowRate = 0 then
    { st := st, PartLoadRat := 0, FRAC := 1, abortFlowZero := true,
      divisors := [], warnings := 0, plrForFrac := none }
  else
    let a := lockedInitQEvap env Cp myLoad EvapOutletTempSetPoint st
    let b := lockedLowLimitClamp spec env Cp a.1
    let c := lockedNodeMinClamp env Cp b
    let d := lockedLoadClamp env Cp myLoad c
    let e := lockedSWTFault env Cp swtOn d.1
    let f := lockedMachineClamp spec env Cp AvailChillerCap e
    lockedFinish spec env AvailChillerCap (a.2 ++ d.2 ++ f.2) f.1

/-- Compressor power draw (source lines 2416-2417), including the
fallback reference COP of 5.5 when the fouled reference COP is
non-positive. -/
def chillerPower (AvailChillerCap ReferenceCOP eirfplr eirft FRAC : ℚ) : ℚ :=
  AvailChillerCap / (if ReferenceCOP ≤ 0 then 11/2 else ReferenceCOP) *
    eirfplr * eirft * FRAC

/-- Common tail of the single-point evaluator after the flow-lock branch
(source lines 2389-2434): EIR curves, power, condenser heat, heat-recovery
split and the condenser-side energy balance. -/
def calcTail (spec : ChillerSpec) (env : PlantEnv)
    (CondInletTemp AvailChillerCap ReferenceCOP myLoad : ℚ) (eo : EvapOut) : CalcResult :=
  let st := eo.st
  let PartLoadRat := eo.PartLoadRat
  -- EIR-vs-temperature curve (line 2389)
  let st := { st with ChillerEIRFT := max 0 (env.eirFT st.EvapOutletTemp st.ChillerCondAvgTemp) }
  -- EIR-vs-part-load curve (lines 2391-2414)
  let plrBundle : ℚ × List ℚ :=
    match spec.PartLoadCurveType with
    | PLRCurveType.leavingCondenserWaterTemperature =>
        (max 0 (env.eirFPLR2 st.ChillerCondAvgTemp PartLoadRat), ([] : List ℚ))
    | PLRCurveType.lift =>
        let ChillerLift := st.ChillerCondAvgTemp - st.EvapOutletTemp
        let ChillerTdev := |st.EvapOutletTemp - spec.TempRefEvapOut|
        let ChillerLiftRef0 := spec.TempRefCondOut - spec.TempRefEvapOut
        let ChillerLiftRef := if ChillerLiftRef0 ≤ 0 then 35 - 667/100 else ChillerLiftRef0
        (max 0 (env.eirFPLR3 (ChillerLift / ChillerLiftRef) PartLoadRat
            (ChillerTdev / ChillerLiftRef)),
         [ChillerLiftRef, ChillerLiftRef])
  let st := { st with ChillerEIRFPLR := plrBundle.1 }
  -- power (lines 2416-2417)
  let st := { st with Power := (chillerPower AvailChillerCap ReferenceCOP
      st.ChillerEIRFPLR st.ChillerEIRFT eo.FRAC) }
  -- condenser heat (line 2419)
  let st := { st with QCondenser := st.Power * spec.CompPowerToCondenserFrac +
      st.QEvaporator + st.ChillerFalseLoadRate }
  -- condenser-side energy balance (lines 2421-2434)
  if st.CondMassFlowRate > env.massFlowTolerance then
    let hrBundle : ChillerState × List ℚ :=
      if spec.HeatRecActive then
        let hr := ReformEIRChillerHeatRecovery spec env st.QCondenser
            st.CondMassFlowRate CondInletTemp
        ({ st with
            QCondenser := hr.QCond
            QHeatRecovery := hr.QHeatRec
            HeatRecOutletTemp := hr.HeatRecOutletTemp }, hr.divisors)
      else (st, ([] : List ℚ))
    let st := hrBundle.1
    let st := { st with CondOutletTemp :=
        st.QCondenser / st.CondMassFlowRate / env.cpCond + CondInletTemp }
    { state := st, myLoad := myLoad,
      trace := { divisors := eo.divisors ++ plrBundle.2 ++ hrBundle.2 ++ [st.CondMassFlowRate],
                 severeErrors := 0, fatalErrors := 0, warnings := eo.warnings,
                 plrForFrac := eo.plrForFrac } }
  else
    -- severe (non-fatal) diagnostic, lines 2432-2433; no outlet update
    { state := st, myLoad := myLoad,
      trace := { divisors := eo.divisors ++ plrBundle.2, severeErrors := 1,
                 fatalErrors := 0, warnings := eo.warnings, plrForFrac := eo.plrForFrac } }



/-- Zeroing of the output fields at the top of every evaluation call
(source lines 1950-1967). -/
def calcZeroOutputs (st : ChillerState) : ChillerState :=
  { st with
      ChillerPartLoadRatio := (0 : ℚ)
      ChillerCyclingRatio := (0 : ℚ)
      ChillerFalseLoadRate := (0 : ℚ)
      EvapMassFlowRate := (0 : ℚ)
      CondMassFlowRate := (0 : ℚ)
      Power := (0 : ℚ)
      QCondenser := (0 : ℚ)
      QEvaporator := (0 : ℚ)
      QHeatRecovery := (0 : ℚ)
      ChillerCapFT := (0 : ℚ)
      ChillerEIRFT := (0 : ℚ)
      ChillerEIRFPLR := (0 : ℚ) }

/-- Whether the chiller-fouling fault adapter is applied this call
(source line 2013). -/
def foulingOnFor (spec : ChillerSpec) (env : PlantEnv) : Bool :=
  spec.FaultyChillerFoulingFlag && !env.warmupFlag && !env.doingSizing &&
    !env.kickOffSimulation

/-- Whether the supply-water-temperature sensor fault adapter is applied
this call (source lines 2077, 2250, 2330). -/
def swtOnFor (spec : ChillerSpec) (env : PlantEnv) : Bool :=
  spec.FaultyChillerSWTFlag && !env.warmupFlag && !env.doingSizing &&
    !env.kickOffSimulation

/-- Reference capacity after the fouling fault (source lines 2015-2022). -/
def fouledRefCap (spec : ChillerSpec) (env : PlantEnv) : ℚ :=
  if foulingOnFor spec env then spec.RefCap * env.foulingFactor else spec.RefCap

/-- Reference COP after the fouling fault (source lines 2016-2023). -/
def fouledRefCOP (spec : ChillerSpec) (env : PlantEnv) : ℚ :=
  if foulingOnFor spec env then spec.RefCOP * env.foulingFactor else spec.RefCOP

/-- Evaporator outlet setpoint after the SWT sensor fault adjustment
(source lines 2076-2086). -/
def evapSetPointFinal (spec : ChillerSpec) (env : PlantEnv) : ℚ :=
  if swtOnFor spec env then
    max spec.TempLowLimitEvapOut
      (min env.evapInletTemp (resolvedEvapSetPoint spec env - env.swtOffsetAct))
  else resolvedEvapSetPoint spec env

/-- State effects of the evaluator up to the condenser-flow check: node
evaporator outlet temperature (line 2003), fouling-factor report field
(line 2019) and the resolved condenser mass flow (lines 2028-2045). -/
def calcPrologue (spec : ChillerSpec) (env : PlantEnv) (st : ChillerState) : ChillerState :=
  let st := { st with EvapOutletTemp := env.evapOutletNodeTemp }
  let st := if foulingOnFor spec env then
      { st with FaultyChillerFoulingFactor := env.foulingFactor } else st
  { st with CondMassFlowRate := env.resolveCondFlow spec.CondMassFlowRateMax }

/-- State effects of the evaluator between the condenser-flow check and
the evaporator-flow check: SWT-offset report field (line 2087), effective
condenser temperature for curve lookups (lines 2090-2103), capacity curve
(line 2106) and the node evaporator mass flow (line 2111). -/
def calcMid (spec : ChillerSpec) (env : PlantEnv) (FalsiCondOutTemp : ℚ)
    (st : ChillerState) : ChillerState :=
  let st := if swtOnFor spec env then
      { st with FaultyChillerSWTOffset :=
          resolvedEvapSetPoint spec env - evapSetPointFinal spec env }
    else st
  let st := { st with ChillerCondAvgTemp :=
    if spec.HeatRecActive then
      (if st.QHeatRecovery + st.QCondenser > 0 then
        (st.QHeatRecovery * st.HeatRecOutletTemp +
          st.QCondenser * st.CondOutletTemp) / (st.QHeatRecovery + st.QCondenser)
       else FalsiCondOutTemp)
    else FalsiCondOutTemp }
  let st := { st with ChillerCapFT := (max 0
      (env.capFT (evapSetPointFinal spec env) st.ChillerCondAvgTemp)) }
  { st with EvapMassFlowRate := env.evapInletMassFlow }

/-- Final step of the evaluator: either the zero-evaporator-flow abort
result from the flow-lock branch (lines 2182-2186) or the performance
tail (lines 2389-2435). -/
def dispatchFinish (spec : ChillerSpec) (env : PlantEnv) (A COP L : ℚ)
    (eo : EvapOut) : CalcResult :=
  if eo.abortFlowZero then
    { state := eo.st, myLoad := 0,
      trace := { divisors := eo.divisors, severeErrors := 0, fatalErrors := 0,
                 warnings := eo.warnings, plrForFrac := eo.plrForFrac } }
  else
    calcTail spec env env.condInletTemp A COP L eo

/-- Load clamp, part-load ratio, flow-lock dispatch and tail of the
evaluator (source lines 2121-2435): everything after the evaporator-flow
check, starting from the state `st` left by the curve setup. -/
def calcDispatch (spec : ChillerSpec) (env : PlantEnv) (myLoad : ℚ)
    (st : ChillerState) : CalcResult :=
  let sp := evapSetPointFinal spec env
  let AvailChillerCap := fouledRefCap spec env * st.ChillerCapFT
  let Cp := env.cpEvap
  -- water-side load and load clamp (lines 2121-2138)
  let TempLoad := max 0 (env.evapInletMassFlowRateMaxAvail * Cp * (env.evapInletTemp - sp))
  let myLoad := if |myLoad| > TempLoad then fsign TempLoad myLoad else myLoad
  -- part-load ratio and evaporator heat (lines 2140-2150)
  let PartLoadRat := if AvailChillerCap > 0 then
      max 0 (min (|myLoad| / AvailChillerCap) spec.MaxPartLoadRat) else 0
  let st := { st with
      QEvaporator := AvailChillerCap * PartLoadRat
      ChillerPartLoadRatio := PartLoadRat }
  -- flow-lock branch (lines 2151-2387)
  let eo := if env.flowLocked = false then
      evapUnlocked spec env st Cp AvailChillerCap PartLoadRat (swtOnFor spec env)
    else
      evapLocked spec env st Cp AvailChillerCap myLoad sp (swtOnFor spec env)
  dispatchFinish spec env AvailChillerCap (fouledRefCOP spec env) myLoad eo

/-- Single-point performance evaluator (`CalcReformEIRChillerModel`,
source lines 1917-2435) at the assumed condenser outlet temperature
`FalsiCondOutTemp`. -/
def CalcReformEIRChillerModel (spec : ChillerSpec) (env : PlantEnv)
    (myLoad : ℚ) (runFlag : Bool) (equipFlowCtrl : ℤ) (st : ChillerState)
    (FalsiCondOutTemp : ℚ) : CalcResult :=
  -- zero the outputs (lines 1950-1967)
  let st := calcZeroOutputs st
  if myLoad ≥ 0 ∨ runFlag = false then
    -- idle fast path (lines 1976-1991)
    let st := if equipFlowCtrl = env.ctrlSeriesActive ∨ env.flowLocked = true then
        { st with EvapMassFlowRate := env.evapInletMassFlow } else st
    let st := if env.condCompSeriesActive then
        { st with CondMassFlowRate := env.condInletMassFlow } else st
    { state := st, myLoad := myLoad, trace := CalcTrace.empty }
  else
  -- lines 2003-2047
  let st := calcPrologue spec env st
  if st.CondMassFlowRate < env.massFlowTolerance then
    { state := st, myLoad := myLoad, trace := CalcTrace.empty }
  else
  -- lines 2076-2111
  let st := calcMid spec env FalsiCondOutTemp st
  if st.EvapMassFlowRate = 0 then
    { state := st, myLoad := 0, trace := CalcTrace.empty }
  else
  -- lines 2121-2435
  calcDispatch spec env myLoad st

/-- Identity of a diagnostic emitted by the solver or the boundary
validator. -/
inductive DiagKey where
  | capftXRange
  | eirftXRange
  | capftYRange
  | eirftYRange
  | eirfplrTRange
  | eirfplrPLRRange
  | capftNegative
  | eirftNegative
  | eirfplrNegative
  | iterLimit
  | iterFail
deriving DecidableEq, Repr

/-- One emitted diagnostic: its key and whether it was the detailed
one-time warning (`true`) or the terse recurring summary (`false`). -/
structure Diag where
  key : DiagKey
  firstTime : Bool
deriving DecidableEq, Repr

/-- Evaporator outlet temperature versus the CAPFT curve X range
(source lines 2471-2492). -/
def checkCapftXRange (spec : ChillerSpec) (st : ChillerState) : ChillerState × List Diag :=
  if st.EvapOutletTemp < spec.ChillerCAPFTXTempMin ∨
      st.EvapOutletTemp > spec.ChillerCAPFTXTempMax then
    let st := { st with CAPFTXIter := st.CAPFTXIter + 1 }
    (st, [{ key := DiagKey.capftXRange, firstTime := decide (st.CAPFTXIter = 1) }])
  else (st, [])

/-- Evaporator outlet temperature versus the EIRFT curve X range
(source lines 2494-2517). -/
def checkEirftXRange (spec : ChillerSpec) (st : ChillerState) : ChillerState × List Diag :=
  if st.EvapOutletTemp < spec.ChillerEIRFTXTempMin ∨
      st.EvapOutletTemp > spec.ChillerEIRFTXTempMax then
    let st := { st with EIRFTXIter := st.EIRFTXIter + 1 }
    (st, [{ key := DiagKey.eirftXRange, firstTime := decide (st.EIRFTXIter = 1) }])
  else (st, [])

/-- Condenser outlet temperature versus the CAPFT curve Y range
(source lines 2550-2571). -/
def checkCapftYRange (spec : ChillerSpec) (st : ChillerState) : ChillerState × List Diag :=
  if st.CondOutletTemp < spec.ChillerCAPFTYTempMin ∨
      st.CondOutletTemp > spec.ChillerCAPFTYTempMax then
    let st := { st with CAPFTYIter := st.CAPFTYIter + 1 }
    (st, [{ key := DiagKey.capftYRange, firstTime := decide (st.CAPFTYIter = 1) }])
  else (st, [])

/-- Condenser outlet temperature versus the EIRFT curve Y range
(source lines 2573-2596). -/
def checkEirftYRange (spec : ChillerSpec) (st : ChillerState) : ChillerState × List Diag :=
  if st.CondOutletTemp < spec.ChillerEIRFTYTempMin ∨
      st.CondOutletTemp > spec.ChillerEIRFTYTempMax then
    let st := { st with EIRFTYIter := st.EIRFTYIter + 1 }
    (st, [{ key := DiagKey.eirftYRange, firstTime := decide (st.EIRFTYIter = 1) }])
  else (st, [])

/-- Condenser outlet temperature versus the EIRFPLR curve temperature
range, leaving-condenser variant only (source lines 2598-2624). -/
def checkEirfplrTRange (spec : ChillerSpec) (st : ChillerState) : ChillerState × List Diag :=
  if spec.PartLoadCurveType = PLRCurveType.leavingCondenserWaterTemperature then
    if st.CondOutletTemp < spec.ChillerEIRFPLRTempMin ∨
        st.CondOutletTemp > spec.ChillerEIRFPLRTempMax then
      let st := { st with EIRFPLRTIter := st.EIRFPLRTIter + 1 }
      (st, [{ key := DiagKey.eirfplrTRange, firstTime := decide (st.EIRFPLRTIter = 1) }])
    else (st, [])
  else (st, [])

/-- Part-load ratio versus the EIRFPLR curve PLR range
(source lines 2626-2650). -/
def checkEirfplrPLRRange (spec : ChillerSpec) (st : ChillerState) : ChillerState × List Diag :=
  if st.ChillerPartLoadRatio < spec.ChillerEIRFPLRPLRMin ∨
      st.ChillerPartLoadRatio > spec.ChillerEIRFPLRPLRMax then
    let st := { st with EIRFPLRPLRIter := st.EIRFPLRPLRIter + 1 }
    (st, [{ key := DiagKey.eirfplrPLRRange, firstTime := decide (st.EIRFPLRPLRIter = 1) }])
  else (st, [])

/-- Re-evaluate CAPFT at the final operating point and warn if negative
(source lines 2652-2699). -/
def checkCapftNeg (spec : ChillerSpec) (env : PlantEnv) (st : ChillerState) :
    ChillerState × List Diag :=
  let sp := resolvedEvapSetPoint spec env
  let st := { st with ChillerCapFT := env.capFT sp st.CondOutletTemp }
  if st.ChillerCapFT < 0 then
    if st.ChillerCapFTError < 1 ∧ env.flowLocked = true ∧ env.warmupFlag = false then
      ({ st with ChillerCapFTError := st.ChillerCapFTError + 1 },
       [{ key := DiagKey.capftNegative, firstTime := true }])
    else if env.flowLocked = true ∧ env.warmupFlag = false then
      ({ st with ChillerCapFTError := st.ChillerCapFTError + 1 },
       [{ key := DiagKey.capftNegative, firstTime := false }])
    else (st, [])
  else (st, [])

/-- Re-evaluate EIRFT at the final operating point and warn if negative
(source lines 2701-2721). -/
def checkEirftNeg (env : PlantEnv) (st : ChillerState) : ChillerState × List Diag :=
  let st := { st with ChillerEIRFT := env.eirFT st.EvapOutletTemp st.CondOutletTemp }
  if st.ChillerEIRFT < 0 then
    if st.ChillerEIRFTError < 1 ∧ env.flowLocked = true ∧ env.warmupFlag = false then
      ({ st with ChillerEIRFTError := st.ChillerEIRFTError + 1 },
       [{ key := DiagKey.eirftNegative, firstTime := true }])
    else if env.flowLocked = true ∧ env.warmupFlag = false then
      ({ st with ChillerEIRFTError := st.ChillerEIRFTError + 1 },
       [{ key := DiagKey.eirftNegative, firstTime := false }])
    else (st, [])
  else (st, [])

/-- Re-evaluate EIRFPLR at the final operating point and warn if negative
(source lines 2723-2765). -/
def checkEirfplrNeg (spec : ChillerSpec) (env : PlantEnv) (st : ChillerState) :
    ChillerState × List Diag :=
  let st := { st with ChillerEIRFPLR :=
    match spec.PartLoadCurveType with
    | PLRCurveType.leavingCondenserWaterTemperature =>
        env.eirFPLR2 st.CondOutletTemp st.ChillerPartLoadRatio
    | PLRCurveType.lift =>
        let ChillerLift := st.CondOutletTemp - st.EvapOutletTemp
        let ChillerTdev := |st.EvapOutletTemp - spec.TempRefEvapOut|
        let ChillerLiftRef0 := spec.TempRefCondOut - spec.TempRefEvapOut
        let ChillerLiftRef := if ChillerLiftRef0 ≤ 0 then 35 - 667/100 else ChillerLiftRef0
        env.eirFPLR3 (ChillerLift / ChillerLiftRef) st.ChillerPartLoadRatio
          (ChillerTdev / ChillerLiftRef) }
  if st.ChillerEIRFPLR < 0 then
    if st.ChillerEIRFPLRError < 1 ∧ env.flowLocked = true ∧ env.warmupFlag = false then
      ({ st with ChillerEIRFPLRError := st.ChillerEIRFPLRError + 1 },
       [{ key := DiagKey.eirfplrNegative, firstTime := true }])
    else if env.flowLocked = true ∧ env.warmupFlag = false then
      ({ st with ChillerEIRFPLRError := st.ChillerEIRFPLRError + 1 },
       [{ key := DiagKey.eirfplrNegative, firstTime := false }])
    else (st, [])
  else (st, [])

/-- Boundary validator (`CheckMinMaxCurveBoundaries`, source lines
2437-2766): compares the stored operating point against each curve's
declared domain and re-evaluates the three curves at the final operating
point, warning when an output is negative. -/
def CheckMinMaxCurveBoundaries (spec : ChillerSpec) (env : PlantEnv)
    (firstIteration : Bool) (st : ChillerState) : ChillerState × List Diag :=
  -- line 2454: skip during first iteration, warm-up, or unlocked flow
  if firstIteration = true ∨ env.warmupFlag = true ∨ env.flowLocked = false then
    (st, [])
  else
    let r1 := checkCapftXRange spec st
    let r2 := checkEirftXRange spec r1.1
    let r3 := checkCapftYRange spec r2.1
    let r4 := checkEirftYRange spec r3.1
    let r5 := checkEirfplrTRange spec r4.1
    let r6 := checkEirfplrPLRRange spec r5.1
    let r7 := checkCapftNeg spec env r6.1
    let r8 := checkEirftNeg env r7.1
    let r9 := checkEirfplrNeg spec env r8.1
    (r9.1, r1.2 ++ r2.2 ++ r3.2 ++ r4.2 ++ r5.2 ++ r6.2 ++ r7.2 ++ r8.2 ++ r9.2)

/-- External root finder (`General::SolveRoot`) abstracted as an oracle:
the sequence of condenser-temperature iterates at which it evaluates the
residual, and the status flag it returns (`-1` iteration limit, `-2` no
root in bracket, anything else success). -/
structure RootFinderOracle where
  iterates : List ℚ
  solFla : ℤ

/-- How the solver settled this call. -/
inductive SolverPath where
  | rootFind (acc : ℚ) (maxIter : ℕ) (solFla : ℤ)
  | degenerate (t1 t2 : ℚ)
deriving DecidableEq, Repr

/-- Result of one `ControlReformEIRChillerModel` call. -/
structure ControlResult where
  state : ChillerState
  myLoad : ℚ
  Tmin : ℚ
  Tmax : ℚ
  condTempMin : ℚ
  condTempMax : ℚ
  path : Option SolverPath
  evalTemps : List ℚ
  diags : List Diag

/-- Residual-function evaluation performed inside `General::SolveRoot`
(`CondOutTempResidual`, source lines 1887-1915): `Par` decodes to the
captured load/flags, the evaluator runs at the probe temperature, and the
residual is `FalsiCondOutTemp - CondOutletTemp`.  Its load argument is a
local copy, so any reset of the load inside the evaluator is discarded. -/
def CondOutTempResidual (spec : ChillerSpec) (env : PlantEnv)
    (par2 : ℚ) (par3 _par4 par6 : ℤ) (st : ChillerState)
    (FalsiCondOutTemp : ℚ) : ℚ × ChillerState :=
  let runFlag : Bool := decide (par3 = 1)
  let equipFlowCtrl : ℤ := if par6 = 0 then 0 else 1
  let r := CalcReformEIRChillerModel spec env par2 runFlag equipFlowCtrl st FalsiCondOutTemp
  (FalsiCondOutTemp - r.state.CondOutletTemp, r.state)

/-- Condenser-temperature solver (`ControlReformEIRChillerModel`, source
lines 1592-1730): bracket from the curve domains, probe at `Tmin`/`Tmax`,
then either drive `General::SolveRoot` over the residual or fall back to
the midpoint relaxation, and finally run the boundary validator. -/
def ControlReformEIRChillerModel (spec : ChillerSpec) (env : PlantEnv)
    (oracle : RootFinderOracle) (myLoad : ℚ) (runFlag firstIteration : Bool)
    (equipFlowCtrl : ℤ) (st : ChillerState) : ControlResult :=
  let Acc : ℚ := 1/10000
  let MaxIter : ℕ := 500
  if myLoad ≥ 0 ∨ runFlag = false then
    -- line 1615-1617: evaluate once at the condenser inlet temperature
    let r := CalcReformEIRChillerModel spec env myLoad runFlag equipFlowCtrl st env.condInletTemp
    { state := r.state, myLoad := r.myLoad, Tmin := 0, Tmax := 0,
      condTempMin := 0, condTempMax := 0, path := none,
      evalTemps := [env.condInletTemp], diags := [] }
  else
  -- bracket from curve domains (lines 1620-1650)
  let Tmin :=
    match spec.PartLoadCurveType with
    | PLRCurveType.leavingCondenserWaterTemperature =>
        min (min spec.ChillerCAPFTYTempMin spec.ChillerEIRFTYTempMin)
          spec.ChillerEIRFPLRTempMin
    | PLRCurveType.lift =>
        min spec.ChillerCAPFTYTempMin spec.ChillerEIRFTYTempMin
  let Tmax :=
    match spec.PartLoadCurveType with
    | PLRCurveType.leavingCondenserWaterTemperature =>
        max (max spec.ChillerCAPFTYTempMax spec.ChillerEIRFTYTempMax)
          spec.ChillerEIRFPLRTempMax
    | PLRCurveType.lift =>
        max spec.ChillerCAPFTYTempMax spec.ChillerEIRFTYTempMax
  -- probes (lines 1652-1660)
  let r1 := CalcReformEIRChillerModel spec env myLoad runFlag equipFlowCtrl st Tmin
  let condTempMin := r1.state.CondOutletTemp
  let r2 := CalcReformEIRChillerModel spec env r1.myLoad runFlag equipFlowCtrl r1.state Tmax
  let condTempMax := r2.state.CondOutletTemp
  if condTempMin > Tmin ∧ condTempMax < Tmax then
    -- lines 1664-1720: Par packing and General::SolveRoot
    let par2 := r2.myLoad
    let stSolve := oracle.iterates.foldl
        (fun s t => (CondOutTempResidual spec env par2 1 (if firstIteration then 1 else 0)
            equipFlowCtrl s t).2) r2.state
    if oracle.solFla = -1 then
      let bundle : ChillerState × List Diag :=
        if env.warmupFlag = false then
          let s := { stSolve with IterLimitExceededNum := stSolve.IterLimitExceededNum + 1 }
          (s, [{ key := DiagKey.iterLimit, firstTime := decide (s.IterLimitExceededNum = 1) }])
        else (stSolve, [])
      let cr := CheckMinMaxCurveBoundaries spec env firstIteration bundle.1
      { state := cr.1, myLoad := r2.myLoad, Tmin := Tmin, Tmax := Tmax,
        condTempMin := condTempMin, condTempMax := condTempMax,
        path := some (SolverPath.rootFind Acc MaxIter oracle.solFla),
        evalTemps := [Tmin, Tmax] ++ oracle.iterates, diags := bundle.2 ++ cr.2 }
    else if oracle.solFla = -2 then
      let bundle : ChillerState × List Diag :=
        if env.warmupFlag = false then
          let s := { stSolve with IterFailed := stSolve.IterFailed + 1 }
          (s, [{ key := DiagKey.iterFail, firstTime := decide (s.IterFailed = 1) }])
        else (stSolve, [])
      -- line 1718-1719: conservative fallback at the condenser inlet temperature
      let r3 := CalcReformEIRChillerModel spec env r2.myLoad runFlag equipFlowCtrl
          bundle.1 env.condInletTemp
      let cr := CheckMinMaxCurveBoundaries spec env firstIteration r3.state
      { state := cr.1, myLoad := r3.myLoad, Tmin := Tmin, Tmax := Tmax,
        condTempMin := condTempMin, condTempMax := condTempMax,
        path := some (SolverPath.rootFind Acc MaxIter oracle.solFla),
        evalTemps := [Tmin, Tmax] ++ oracle.iterates ++ [env.condInletTemp],
        diags := bundle.2 ++ cr.2 }
    else
      let cr := CheckMinMaxCurveBoundaries spec env firstIteration stSolve
      { state := cr.1, myLoad := r2.myLoad, Tmin := Tmin, Tmax := Tmax,
        condTempMin := condTempMin, condTempMax := condTempMax,
        path := some (SolverPath.rootFind Acc MaxIter oracle.solFla),
        evalTemps := [Tmin, Tmax] ++ oracle.iterates, diags := cr.2 }
  else
    -- lines 1721-1725: average the probe outputs and evaluate twice
    let mid := (condTempMin + condTempMax) / 2
    let r3 := CalcReformEIRChillerModel spec env r2.myLoad runFlag equipFlowCtrl r2.state mid
    let r4 := CalcReformEIRChillerModel spec env r3.myLoad runFlag equipFlowCtrl r3.state
        r3.state.CondOutletTemp
    let cr := CheckMinMaxCurveBoundaries spec env firstIteration r4.state
    { state := cr.1, myLoad := r4.myLoad, Tmin := Tmin, Tmax := Tmax,
      condTempMin := condTempMin, condTempMax := condTempMax,
      path := some (SolverPath.degenerate mid r3.state.CondOutletTemp),
      evalTemps := [Tmin, Tmax, mid, r3.state.CondOutletTemp], diags := cr.2 }


/-- Fields of `ChillerState` that belong to the condenser side of the
energy balance (used to state that the evaporator-side branch never
touches them). -/
def condSideFields (st : ChillerState) : ℚ × ℚ × ℚ × ℚ × ℚ × ℚ :=
  (st.ChillerCondAvgTemp, st.QCondenser, st.QHeatRecovery, st.CondMassFlowRate,
   st.CondOutletTemp, st.HeatRecOutletTemp)

/-- All physical result fields of `ChillerState`: everything except the
three stored curve outputs and the diagnostic counters. -/
def physFields (st : ChillerState) :
    ℚ × ℚ × ℚ × ℚ × ℚ × ℚ × ℚ × ℚ × ℚ × ℚ × ℚ × ℚ × ℚ × Bool × ℚ × ℚ :=
  (st.ChillerPartLoadRatio, st.ChillerCyclingRatio, st.ChillerFalseLoadRate,
   st.EvapMassFlowRate, st.CondMassFlowRate, st.Power, st.QCondenser,
   st.QEvaporator, st.QHeatRecovery, st.EvapOutletTemp, st.CondOutletTemp,
   st.HeatRecOutletTemp, st.ChillerCondAvgTemp, st.PossibleSubcooling,
   st.FaultyChillerFoulingFactor, st.FaultyChillerSWTOffset)

/-- Concrete chiller state with all report fields zeroed (fouling-factor
report field at its neutral value 1). -/
def testState0 : ChillerState :=
  { ChillerPartLoadRatio := 0, ChillerCyclingRatio := 0, ChillerFalseLoadRate := 0,
    EvapMassFlowRate := 0, CondMassFlowRate := 0, Power := 0, QCondenser := 0,
    QEvaporator := 0, QHeatRecovery := 0, EvapOutletTemp := 0, CondOutletTemp := 0,
    HeatRecOutletTemp := 0, ChillerCondAvgTemp := 0, ChillerCapFT := 0,
    ChillerEIRFT := 0, ChillerEIRFPLR := 0, PossibleSubcooling := false,
    FaultyChillerFoulingFactor := 1, FaultyChillerSWTOffset := 0,
    DeltaTErrCount := 0, ChillerCapFTError := 0, ChillerEIRFTError := 0,
    ChillerEIRFPLRError := 0, CAPFTXIter := 0, EIRFTXIter := 0, CAPFTYIter := 0,
    EIRFTYIter := 0, EIRFPLRTIter := 0, EIRFPLRPLRIter := 0,
    IterLimitExceededNum := 0, IterFailed := 0 }

/-- Concrete water-cooled chiller: 100 kW reference capacity, COP 5,
leaving-condenser-temperature part-load curve, no heat recovery, no
faults, generous curve domains. -/
def testSpec : ChillerSpec :=
  { RefCap := 100, RefCOP := 5, TempRefEvapOut := 667/100, TempRefCondOut := 35,
    TempLowLimitEvapOut := 0, MinPartLoadRat := 1/10, MaxPartLoadRat := 1,
    MinUnloadRat := 1/5, CompPowerToCondenserFrac := 1, EvapMassFlowRateMax := 1,
    CondMassFlowRateMax := 1,
    PartLoadCurveType := PLRCurveType.leavingCondenserWaterTemperature,
    FlowMode := FlowModeType.notModulated, HeatRecActive := false,
    HeatRecCapacityFraction := 10, hasHeatRecSetPointNode := false,
    hasHeatRecInletLimitSched := false, FaultyChillerFoulingFlag := false,
    FaultyChillerSWTFlag := false,
    ChillerCAPFTXTempMin := 0, ChillerCAPFTXTempMax := 50,
    ChillerCAPFTYTempMin := 0, ChillerCAPFTYTempMax := 40,
    ChillerEIRFTXTempMin := 0, ChillerEIRFTXTempMax := 50,
    ChillerEIRFTYTempMin := 0, ChillerEIRFTYTempMax := 40,
    ChillerEIRFPLRTempMin := 0, ChillerEIRFPLRTempMax := 40,
    ChillerEIRFPLRPLRMin := 0, ChillerEIRFPLRPLRMax := 1 }

/-- Concrete plant environment: unit flows and specific heats, identity
flow resolvers, all performance curves constantly 1, flow unlocked, no
faults, no warm-up. -/
def testEnv : PlantEnv :=
  { condInletTemp := 20, condInletMassFlow := 1, evapInletTemp := 10,
    evapInletMassFlow := 1, evapInletMassFlowRateMaxAvail := 1,
    evapOutletNodeTemp := 10, evapOutletNodeTempMin := -100,
    evapOutletHasSetPoint := true, evapOutletTempSetPoint := 5,
    evapOutletHasSetPointHi := true, evapOutletTempSetPointHi := 5,
    loopTempSetPoint := 5, loopTempSetPointHi := 5,
    loopDemandCalcScheme := LoopScheme.singleSetPoint,
    hrLoopDemandCalcScheme := LoopScheme.singleSetPoint,
    curOpSchemeCompSetPtBased := false, flowLocked := false,
    condCompSeriesActive := false, resolveEvapFlow := fun q => q,
    resolveCondFlow := fun q => q, cpEvap := 1, cpCond := 1, cpHeatRec := 1,
    heatRecInletTemp := 0, heatRecMassFlowRate := 1, heatRecNodeSetPoint := 1000,
    heatRecNodeSetPointHi := 1000, heatRecInletLimitSchedValue := 0,
    warmupFlag := false, doingSizing := false, kickOffSimulation := false,
    foulingFactor := 1, swtOffsetAct := 0,
    calFaultChillerSWT := fun _ _ _ _ a b c => (a, b, c),
    massFlowTolerance := 1/1000, smallLoad := 100, deltaTempTol := 1/100,
    ctrlSeriesActive := 3, capFT := fun _ _ => 1, eirFT := fun _ _ => 1,
    eirFPLR2 := fun _ _ => 1, eirFPLR3 := fun _ _ _ => 1 }

/-- The test chiller with heat recovery active under the setpoint policy. -/
def hrSpec : ChillerSpec := { testSpec with
  HeatRecActive := true
  hasHeatRecSetPointNode := true }

/-- The test chiller with heat recovery active under the blend policy. -/
def blendSpec : ChillerSpec := { testSpec with HeatRecActive := true }

/-- Root-finder oracle that probes once at 30 degrees and reports success. -/
def oracle0 : RootFinderOracle := { iterates := [30], solFla := 0 }

/-- The test environment with the plant flows locked. -/
def lockedEnv : PlantEnv := { testEnv with flowLocked := true }

/-- The test chiller with zero reference capacity. -/
def negSpec : ChillerSpec := { testSpec with RefCap := 0 }

/-- Locked-flow environment whose capacity curve is constantly negative. -/
def negEnv : PlantEnv := { testEnv with flowLocked := true, capFT := fun _ _ => -1 }

/-- The test chiller with condenser-temperature curve domains capped at
10 degrees, so that a probe output of 45 degrees falls above the bracket. -/
def degSpec : ChillerSpec := { testSpec with
  ChillerCAPFTYTempMax := 10
  ChillerEIRFTYTempMax := 10
  ChillerEIRFPLRTempMax := 10 }

/-- Environment whose capacity curve is constantly zero. -/
def zeroCapEnv : PlantEnv := { testEnv with capFT := fun _ _ => 0 }

/-- Environment whose condenser flow resolver returns zero flow. -/
def zeroCondEnv : PlantEnv := { testEnv with resolveCondFlow := fun _ => 0 }

/-- Environment whose evaporator inlet node carries zero mass flow. -/
def zeroEvapNodeEnv : PlantEnv := { testEnv with evapInletMassFlow := 0 }

/-- Environment whose condenser flow resolver returns exactly the
mass-flow tolerance. -/
def tolCondEnv : PlantEnv := { testEnv with resolveCondFlow := fun _ => 1/1000 }

/-- Chiller state left by a previous call with nonzero recovered heat and
condenser heat. -/
def hrState : ChillerState := { testState0 with
  QHeatRecovery := 3
  QCondenser := 2
  HeatRecOutletTemp := 50
  CondOutletTemp := 30 }

/-- Solver result on the test configuration, used to instantiate the
bracket-decision theorem at a concrete input. -/
def cW : ControlResult :=
  ControlReformEIRChillerModel testSpec testEnv oracle0 (-50) true false 0 testState0

lemma evapUnlocked_FRAC (spec : ChillerSpec) (env : PlantEnv) (st : ChillerState)
    (Cp A P : ℚ) (swtOn : Bool) : (evapUnlocked spec env st Cp A P swtOn).FRAC = 1 := by
  simp only [evapUnlocked]
  repeat' split
  all_goals rfl

lemma evapUnlocked_abort (spec : ChillerSpec) (env : PlantEnv) (st : ChillerState)
    (Cp A P : ℚ) (swtOn : Bool) :
    (evapUnlocked spec env st Cp A P swtOn).abortFlowZero = false := by
  simp only [evapUnlocked]
  repeat' split
  all_goals rfl

lemma evapUnlocked_condSide (spec : ChillerSpec) (env : PlantEnv) (st : ChillerState)
    (Cp A P : ℚ) (swtOn : Bool) :
    condSideFields (evapUnlocked spec env st Cp A P swtOn).st = condSideFields st ∧
    (evapUnlocked spec env st Cp A P swtOn).st.ChillerCyclingRatio = st.ChillerCyclingRatio ∧
    (evapUnlocked spec env st Cp A P swtOn).st.ChillerFalseLoadRate = st.ChillerFalseLoadRate := by
  simp only [evapUnlocked, condSideFields]
  repeat' split
  all_goals simp

lemma lockedInitQEvap_condSide (env : PlantEnv) (Cp L SP : ℚ) (st : ChillerState) :
    condSideFields (lockedInitQEvap env Cp L SP st).1 = condSideFields st := by
  simp only [lockedInitQEvap, condSideFields]
  split_ifs <;> simp

lemma lockedLowLimitClamp_condSide (spec : ChillerSpec) (env : PlantEnv) (Cp : ℚ)
    (st : ChillerState) :
    condSideFields (lockedLowLimitClamp spec env Cp st) = condSideFields st := by
  simp only [lockedLowLimitClamp, condSideFields]
  split_ifs <;> simp

lemma lockedNodeMinClamp_condSide (env : PlantEnv) (Cp : ℚ) (st : ChillerState) :
    condSideFields (lockedNodeMinClamp env Cp st) = condSideFields st := by
  simp only [lockedNodeMinClamp, condSideFields]
  split_ifs <;> simp

lemma lockedLoadClamp_condSide (env : PlantEnv) (Cp L : ℚ) (st : ChillerState) :
    condSideFields (lockedLoadClamp env Cp L st).1 = condSideFields st := by
  simp only [lockedLoadClamp, condSideFields]
  split_ifs <;> simp

lemma lockedSWTFault_condSide (env : PlantEnv) (Cp : ℚ) (swtOn : Bool) (st : ChillerState) :
    condSideFields (lockedSWTFault env Cp swtOn st) = condSideFields st := by
  simp only [lockedSWTFault, condSideFields]
  split_ifs <;> simp

lemma lockedMachineClamp_condSide (spec : ChillerSpec) (env : PlantEnv) (Cp A : ℚ)
    (st : ChillerState) :
    condSideFields (lockedMachineClamp spec env Cp A st).1 = condSideFields st := by
  simp only [lockedMachineClamp, condSideFields]
  split_ifs <;> simp

lemma lockedFinish_condSide (spec : ChillerSpec) (env : PlantEnv) (A : ℚ)
    (divs : List ℚ) (st : ChillerState) :
    condSideFields (lockedFinish spec env A divs st).st = condSideFields st := by
  simp [lockedFinish, condSideFields]

lemma fracOf_nonneg (mn p : ℚ) (hp : 0 ≤ p) :
    0 ≤ (if p < mn then min 1 (p / mn) else 1) := by
  split
  · rename_i h
    exact le_min (by norm_num) (div_nonneg hp (le_of_lt (lt_of_le_of_lt hp h)))
  · norm_num

lemma lockedFinish_FRAC_eq (spec : ChillerSpec) (env : PlantEnv) (A : ℚ)
    (divs : List ℚ) (st : ChillerState) :
    (lockedFinish spec env A divs st).FRAC =
      (if (if A > 0 then max 0 (min (st.QEvaporator / A) spec.MaxPartLoadRat) else 0) <
          spec.MinPartLoadRat then
        min 1 ((if A > 0 then max 0 (min (st.QEvaporator / A) spec.MaxPartLoadRat) else 0) /
          spec.MinPartLoadRat)
      else 1) := rfl

lemma lockedFinish_FRAC_nonneg (spec : ChillerSpec) (env : PlantEnv) (A : ℚ)
    (divs : List ℚ) (st : ChillerState) :
    0 ≤ (lockedFinish spec env A divs st).FRAC := by
  rw [lockedFinish_FRAC_eq]
  refine fracOf_nonneg _ _ ?_
  split
  · exact le_max_left 0 _
  · exact le_refl 0

lemma lockedFinish_cycling (spec : ChillerSpec) (env : PlantEnv) (A : ℚ)
    (divs : List ℚ) (st : ChillerState) (p : ℚ)
    (hp : (lockedFinish spec env A divs st).plrForFrac = some p) :
    (lockedFinish spec env A divs st).st.ChillerCyclingRatio =
      (if p < spec.MinPartLoadRat then min 1 (p / spec.MinPartLoadRat) else 1) := by
  simp only [lockedFinish, Option.some.injEq] at hp ⊢
  rw [hp]

lemma evapLocked_abort (spec : ChillerSpec) (env : PlantEnv) (st : ChillerState)
    (Cp A L SP : ℚ) (swtOn : Bool) :
    (evapLocked spec env st Cp A L SP swtOn).abortFlowZero = true ↔
      env.resolveEvapFlow env.evapInletMassFlow = 0 := by
  simp only [evapLocked]
  split
  · rename_i h
    simp only [eq_self_iff_true, true_iff]
    simpa using h
  · rename_i h
    constructor
    · intro hc
      exact absurd hc (by simp [lockedFinish])
    · intro hc
      exact absurd (by simpa using hc) h

lemma evapLocked_FRAC_nonneg (spec : ChillerSpec) (env : PlantEnv) (st : ChillerState)
    (Cp A L SP : ℚ) (swtOn : Bool) :
    0 ≤ (evapLocked spec env st Cp A L SP swtOn).FRAC := by
  simp only [evapLocked]
  split
  · norm_num
  · exact lockedFinish_FRAC_nonneg _ _ _ _ _

lemma evapLocked_condSide (spec : ChillerSpec) (env : PlantEnv) (st : ChillerState)
    (Cp A L SP : ℚ) (swtOn : Bool) :
    condSideFields (evapLocked spec env st Cp A L SP swtOn).st = condSideFields st := by
  simp only [evapLocked]
  split
  · simp [condSideFields]
  · rw [lockedFinish_condSide, lockedMachineClamp_condSide, lockedSWTFault_condSide,
      lockedLoadClamp_condSide, lockedNodeMinClamp_condSide, lockedLowLimitClamp_condSide,
      lockedInitQEvap_condSide]
    simp [condSideFields]

lemma evapLocked_cycling (spec : ChillerSpec) (env : PlantEnv) (st : ChillerState)
    (Cp A L SP : ℚ) (swtOn : Bool)
    (h : (evapLocked spec env st Cp A L SP swtOn).abortFlowZero = false) :
    ∃ p, (evapLocked spec env st Cp A L SP swtOn).plrForFrac = some p ∧
      (evapLocked spec env st Cp A L SP swtOn).st.ChillerCyclingRatio =
        (if p < spec.MinPartLoadRat then min 1 (p / spec.MinPartLoadRat) else 1) := by
  revert h
  simp only [evapLocked]
  split
  · intro h
    exact absurd h (by simp)
  · intro _
    refine ⟨_, rfl, ?_⟩
    exact lockedFinish_cycling _ _ _ _ _ _ rfl

lemma copGuard_pos (x : ℚ) : 0 < (if x ≤ 0 then (11/2 : ℚ) else x) := by
  split
  · norm_num
  · rename_i h
    exact lt_of_not_le h

lemma chillerPower_nonneg (A COP eirfplr eirft FRAC : ℚ) (hA : 0 ≤ A)
    (h1 : 0 ≤ eirfplr) (h2 : 0 ≤ eirft) (h3 : 0 ≤ FRAC) :
    0 ≤ chillerPower A COP eirfplr eirft FRAC := by
  unfold chillerPower
  exact mul_nonneg (mul_nonneg (mul_nonneg
    (div_nonneg hA (copGuard_pos COP).le) h1) h2) h3

lemma qcond_mono (P f q fl : ℚ) (hP : 0 ≤ P) (hf : 0 ≤ f) :
    q + fl ≤ P * f + q + fl := by nlinarith

lemma calcTail_frame (spec : ChillerSpec) (env : PlantEnv)
    (CIT A COP L : ℚ) (eo : EvapOut) :
    (calcTail spec env CIT A COP L eo).state.ChillerCondAvgTemp = eo.st.ChillerCondAvgTemp ∧
    (calcTail spec env CIT A COP L eo).state.ChillerCyclingRatio = eo.st.ChillerCyclingRatio ∧
    (calcTail spec env CIT A COP L eo).state.QEvaporator = eo.st.QEvaporator ∧
    (calcTail spec env CIT A COP L eo).state.ChillerFalseLoadRate = eo.st.ChillerFalseLoadRate ∧
    (calcTail spec env CIT A COP L eo).state.ChillerPartLoadRatio = eo.st.ChillerPartLoadRatio ∧
    (calcTail spec env CIT A COP L eo).state.EvapMassFlowRate = eo.st.EvapMassFlowRate ∧
    (calcTail spec env CIT A COP L eo).state.EvapOutletTemp = eo.st.EvapOutletTemp ∧
    (calcTail spec env CIT A COP L eo).state.CondMassFlowRate = eo.st.CondMassFlowRate ∧
    (calcTail spec env CIT A COP L eo).trace.plrForFrac = eo.plrForFrac ∧
    (calcTail spec env CIT A COP L eo).trace.fatalErrors = 0 ∧
    (calcTail spec env CIT A COP L eo).myLoad = L := by
  simp only [calcTail]
  repeat' split
  all_goals simp

lemma calcTail_severe (spec : ChillerSpec) (env : PlantEnv)
    (CIT A COP L : ℚ) (eo : EvapOut) :
    (calcTail spec env CIT A COP L eo).trace.severeErrors =
      (if eo.st.CondMassFlowRate > env.massFlowTolerance then 0 else 1) ∧
    (eo.st.CondMassFlowRate ≤ env.massFlowTolerance →
      (calcTail spec env CIT A COP L eo).state.CondOutletTemp = eo.st.CondOutletTemp) := by
  constructor
  · simp only [calcTail]
    repeat' split
    all_goals simp_all
  · intro h
    simp only [calcTail]
    repeat' split
    all_goals try simp_all
    all_goals linarith

lemma calcTail_qcond (spec : ChillerSpec) (env : PlantEnv)
    (CIT A COP L : ℚ) (eo : EvapOut)
    (hHR : spec.HeatRecActive = false) (hA : 0 ≤ A)
    (hfrac : 0 ≤ eo.FRAC) (hcpf : 0 ≤ spec.CompPowerToCondenserFrac) :
    eo.st.QEvaporator + eo.st.ChillerFalseLoadRate ≤
      (calcTail spec env CIT A COP L eo).state.QCondenser := by
  simp only [calcTail]
  repeat' split
  all_goals first
  | exact qcond_mono _ _ _ _
      (chillerPower_nonneg _ _ _ _ _ hA (le_max_left _ _) (le_max_left _ _) hfrac) hcpf
  | simp_all

lemma ReformEIRChillerHeatRecovery_le_limit (spec : ChillerSpec) (env : PlantEnv)
    (QCond CondMassFlow CondInletTemp : ℚ)
    (hlim : 0 ≤ spec.HeatRecMaxCapacityLimit) :
    (ReformEIRChillerHeatRecovery spec env QCond CondMassFlow CondInletTemp).QHeatRec ≤
      spec.HeatRecMaxCapacityLimit := by
  simp only [ReformEIRChillerHeatRecovery]
  repeat' split
  all_goals simp_all

lemma ReformEIRChillerHeatRecovery_setpoint_le_total (spec : ChillerSpec) (env : PlantEnv)
    (QCond CondMassFlow CondInletTemp : ℚ)
    (hsp : spec.hasHeatRecSetPointNode = true) (hq : 0 ≤ QCond) :
    (ReformEIRChillerHeatRecovery spec env QCond CondMassFlow CondInletTemp).QHeatRec ≤
      QCond := by
  simp only [ReformEIRChillerHeatRecovery, hsp]
  repeat' split
  all_goals simp_all

lemma ReformEIRChillerHeatRecovery_inlet_limit_zero (spec : ChillerSpec) (env : PlantEnv)
    (QCond CondMassFlow CondInletTemp : ℚ)
    (hs : spec.hasHeatRecInletLimitSched = true)
    (hlim : env.heatRecInletLimitSchedValue < env.heatRecInletTemp) :
    (ReformEIRChillerHeatRecovery spec env QCond CondMassFlow CondInletTemp).QHeatRec = 0 := by
  simp only [ReformEIRChillerHeatRecovery, hs]
  repeat' split
  all_goals simp_all

lemma ReformEIRChillerHeatRecovery_divisors_eq (spec : ChillerSpec) (env : PlantEnv)
    (QCond CondMassFlow CondInletTemp : ℚ) :
    (ReformEIRChillerHeatRecovery spec env QCond CondMassFlow CondInletTemp).divisors =
      (if spec.hasHeatRecSetPointNode = false then
        [env.heatRecMassFlowRate * env.cpHeatRec + CondMassFlow * env.cpCond,
         env.heatRecMassFlowRate * env.cpHeatRec + CondMassFlow * env.cpCond]
       else []) ++
      (if env.heatRecMassFlowRate > 0 then
        [env.heatRecMassFlowRate * env.cpHeatRec] else []) := by
  simp only [ReformEIRChillerHeatRecovery]
  repeat' split
  all_goals simp_all

lemma ReformEIRChillerHeatRecovery_divisors (spec : ChillerSpec) (env : PlantEnv)
    (QCond CondMassFlow CondInletTemp : ℚ)
    (hmh : 0 ≤ env.heatRecMassFlowRate) (hcph : 0 < env.cpHeatRec)
    (hcpc : 0 < env.cpCond) (hmc : 0 < CondMassFlow) :
    ∀ d ∈ (ReformEIRChillerHeatRecovery spec env QCond CondMassFlow CondInletTemp).divisors,
      d ≠ 0 := by
  have hsum : 0 < env.heatRecMassFlowRate * env.cpHeatRec + CondMassFlow * env.cpCond :=
    add_pos_of_nonneg_of_pos (mul_nonneg hmh hcph.le) (mul_pos hmc hcpc)
  intro d hd
  rw [ReformEIRChillerHeatRecovery_divisors_eq, List.mem_append] at hd
  rcases hd with hd | hd
  · split at hd
    · simp only [List.mem_cons, List.not_mem_nil, or_false] at hd
      rcases hd with h | h
      all_goals rw [h]
      all_goals exact hsum.ne.symm
    · simp at hd
  · split at hd
    · rename_i hpos
      simp only [List.mem_cons, List.not_mem_nil, or_false] at hd
      rw [hd]
      exact (mul_pos hpos hcph).ne.symm
    · simp at hd

lemma checkCapftXRange_phys (spec : ChillerSpec) (st : ChillerState) :
    physFields (checkCapftXRange spec st).1 = physFields st := by
  simp only [checkCapftXRange, physFields]
  split_ifs <;> simp

lemma checkEirftXRange_phys (spec : ChillerSpec) (st : ChillerState) :
    physFields (checkEirftXRange spec st).1 = physFields st := by
  simp only [checkEirftXRange, physFields]
  split_ifs <;> simp

lemma checkCapftYRange_phys (spec : ChillerSpec) (st : ChillerState) :
    physFields (checkCapftYRange spec st).1 = physFields st := by
  simp only [checkCapftYRange, physFields]
  split_ifs <;> simp

lemma checkEirftYRange_phys (spec : ChillerSpec) (st : ChillerState) :
    physFields (checkEirftYRange spec st).1 = physFields st := by
  simp only [checkEirftYRange, physFields]
  split_ifs <;> simp

lemma checkEirfplrTRange_phys (spec : ChillerSpec) (st : ChillerState) :
    physFields (checkEirfplrTRange spec st).1 = physFields st := by
  simp only [checkEirfplrTRange, physFields]
  split_ifs <;> simp

lemma checkEirfplrPLRRange_phys (spec : ChillerSpec) (st : ChillerState) :
    physFields (checkEirfplrPLRRange spec st).1 = physFields st := by
  simp only [checkEirfplrPLRRange, physFields]
  split_ifs <;> simp

lemma checkCapftNeg_phys (spec : ChillerSpec) (env : PlantEnv) (st : ChillerState) :
    physFields (checkCapftNeg spec env st).1 = physFields st := by
  simp only [checkCapftNeg, physFields]
  split_ifs <;> simp

lemma checkEirftNeg_phys (env : PlantEnv) (st : ChillerState) :
    physFields (checkEirftNeg env st).1 = physFields st := by
  simp only [checkEirftNeg, physFields]
  split_ifs <;> simp

lemma checkEirfplrNeg_phys (spec : ChillerSpec) (env : PlantEnv) (st : ChillerState) :
    physFields (checkEirfplrNeg spec env st).1 = physFields st := by
  simp only [checkEirfplrNeg, physFields]
  split_ifs <;> simp

lemma CheckMinMaxCurveBoundaries_phys (spec : ChillerSpec) (env : PlantEnv)
    (fi : Bool) (st : ChillerState) :
    physFields (CheckMinMaxCurveBoundaries spec env fi st).1 = physFields st := by
  simp only [CheckMinMaxCurveBoundaries]
  split
  · rfl
  · rw [checkEirfplrNeg_phys, checkEirftNeg_phys, checkCapftNeg_phys,
      checkEirfplrPLRRange_phys, checkEirfplrTRange_phys, checkEirftYRange_phys,
      checkCapftYRange_phys, checkEirftXRange_phys, checkCapftXRange_phys]

lemma lockedFinish_divisors (spec : ChillerSpec) (env : PlantEnv) (A : ℚ)
    (divs : List ℚ) (st : ChillerState) :
    (lockedFinish spec env A divs st).divisors = divs := rfl

lemma evapUnlocked_divisors (spec : ChillerSpec) (env : PlantEnv) (st : ChillerState)
    (Cp A P : ℚ) (swtOn : Bool) :
    ∀ d ∈ (evapUnlocked spec env st Cp A P swtOn).divisors, d ≠ 0 := by
  simp only [evapUnlocked]
  repeat' split
  all_goals intro d hd
  all_goals simp_all

lemma lockedInitQEvap_divisors (env : PlantEnv) (Cp L SP : ℚ) (st : ChillerState)
    (h : st.EvapMassFlowRate ≠ 0) :
    ∀ d ∈ (lockedInitQEvap env Cp L SP st).2, d ≠ 0 := by
  simp only [lockedInitQEvap]
  split
  all_goals intro d hd
  all_goals simp_all

lemma lockedLoadClamp_divisors (env : PlantEnv) (Cp L : ℚ) (st : ChillerState)
    (htol : 0 < env.massFlowTolerance) :
    ∀ d ∈ (lockedLoadClamp env Cp L st).2, d ≠ 0 := by
  simp only [lockedLoadClamp]
  repeat' split
  all_goals intro d hd
  all_goals simp_all
  all_goals linarith

lemma lockedMachineClamp_divisors (spec : ChillerSpec) (env : PlantEnv) (Cp A : ℚ)
    (st : ChillerState) (htol : 0 < env.massFlowTolerance) :
    ∀ d ∈ (lockedMachineClamp spec env Cp A st).2, d ≠ 0 := by
  simp only [lockedMachineClamp]
  repeat' split
  all_goals intro d hd
  all_goals simp_all
  all_goals linarith

lemma evapLocked_divisors (spec : ChillerSpec) (env : PlantEnv) (st : ChillerState)
    (Cp A L SP : ℚ) (swtOn : Bool) (htol : 0 < env.massFlowTolerance) :
    ∀ d ∈ (evapLocked spec env st Cp A L SP swtOn).divisors, d ≠ 0 := by
  simp only [evapLocked]
  split
  · intro d hd
    simp_all
  · rename_i hflow
    intro d hd
    rw [lockedFinish_divisors, List.mem_append, List.mem_append] at hd
    rcases hd with (hd | hd) | hd
    · refine lockedInitQEvap_divisors _ _ _ _ _ ?_ d hd
      simpa using hflow
    · exact lockedLoadClamp_divisors _ _ _ _ htol d hd
    · exact lockedMachineClamp_divisors _ _ _ _ _ htol d hd

lemma calcTail_divisors (spec : ChillerSpec) (env : PlantEnv)
    (CIT A COP L : ℚ) (eo : EvapOut)
    (heo : ∀ d ∈ eo.divisors, d ≠ 0)
    (hmh : 0 ≤ env.heatRecMassFlowRate) (hcph : 0 < env.cpHeatRec)
    (hcpc : 0 < env.cpCond) (htol : 0 < env.massFlowTolerance) :
    ∀ d ∈ (calcTail spec env CIT A COP L eo).trace.divisors, d ≠ 0 := by
  simp only [calcTail]
  repeat' split
  all_goals intro d hd
  all_goals simp only [List.mem_append, List.mem_cons, List.not_mem_nil, or_false,
    List.append_nil, List.nil_append] at hd
  all_goals repeat'
    first
    | exact heo d hd
    | exact ReformEIRChillerHeatRecovery_divisors _ _ _ _ _ hmh hcph hcpc
        (by linarith) d hd
    | (rw [hd]; exact (show (0:ℚ) < _ by linarith).ne.symm)
    | rcases hd with hd | hd

lemma calc_not_idle (myLoad : ℚ) (runFlag : Bool) (hl : myLoad < 0) (hr : runFlag = true) :
    ¬ (myLoad ≥ 0 ∨ runFlag = false) := by
  rintro (h | h)
  · linarith
  · rw [hr] at h
    exact Bool.noConfusion h

lemma calcZeroOutputs_fields (st : ChillerState) :
    (calcZeroOutputs st).Power = 0 ∧
    (calcZeroOutputs st).QCondenser = 0 ∧
    (calcZeroOutputs st).QEvaporator = 0 ∧
    (calcZeroOutputs st).QHeatRecovery = 0 ∧
    (calcZeroOutputs st).ChillerPartLoadRatio = 0 ∧
    (calcZeroOutputs st).ChillerCyclingRatio = 0 ∧
    (calcZeroOutputs st).ChillerFalseLoadRate = 0 ∧
    (calcZeroOutputs st).CondOutletTemp = st.CondOutletTemp ∧
    (calcZeroOutputs st).HeatRecOutletTemp = st.HeatRecOutletTemp ∧
    (calcZeroOutputs st).ChillerCondAvgTemp = st.ChillerCondAvgTemp := by
  simp [calcZeroOutputs]

lemma calcPrologue_frame (spec : ChillerSpec) (env : PlantEnv) (st : ChillerState) :
    (calcPrologue spec env st).Power = st.Power ∧
    (calcPrologue spec env st).QCondenser = st.QCondenser ∧
    (calcPrologue spec env st).QEvaporator = st.QEvaporator ∧
    (calcPrologue spec env st).QHeatRecovery = st.QHeatRecovery ∧
    (calcPrologue spec env st).ChillerPartLoadRatio = st.ChillerPartLoadRatio ∧
    (calcPrologue spec env st).ChillerCyclingRatio = st.ChillerCyclingRatio ∧
    (calcPrologue spec env st).ChillerFalseLoadRate = st.ChillerFalseLoadRate ∧
    (calcPrologue spec env st).CondOutletTemp = st.CondOutletTemp ∧
    (calcPrologue spec env st).HeatRecOutletTemp = st.HeatRecOutletTemp ∧
    (calcPrologue spec env st).ChillerCondAvgTemp = st.ChillerCondAvgTemp := by
  simp only [calcPrologue]
  split_ifs <;> simp

lemma calcPrologue_condMassFlow (spec : ChillerSpec) (env : PlantEnv) (st : ChillerState) :
    (calcPrologue spec env st).CondMassFlowRate =
      env.resolveCondFlow spec.CondMassFlowRateMax := rfl

lemma calcMid_frame (spec : ChillerSpec) (env : PlantEnv) (FalsiCondOutTemp : ℚ)
    (st : ChillerState) :
    (calcMid spec env FalsiCondOutTemp st).Power = st.Power ∧
    (calcMid spec env FalsiCondOutTemp st).QCondenser = st.QCondenser ∧
    (calcMid spec env FalsiCondOutTemp st).QEvaporator = st.QEvaporator ∧
    (calcMid spec env FalsiCondOutTemp st).QHeatRecovery = st.QHeatRecovery ∧
    (calcMid spec env FalsiCondOutTemp st).ChillerPartLoadRatio = st.ChillerPartLoadRatio ∧
    (calcMid spec env FalsiCondOutTemp st).ChillerCyclingRatio = st.ChillerCyclingRatio ∧
    (calcMid spec env FalsiCondOutTemp st).ChillerFalseLoadRate = st.ChillerFalseLoadRate ∧
    (calcMid spec env FalsiCondOutTemp st).CondOutletTemp = st.CondOutletTemp ∧
    (calcMid spec env FalsiCondOutTemp st).HeatRecOutletTemp = st.HeatRecOutletTemp ∧
    (calcMid spec env FalsiCondOutTemp st).CondMassFlowRate = st.CondMassFlowRate := by
  simp only [calcMid]
  split_ifs <;> simp

lemma calcMid_evapMassFlow (spec : ChillerSpec) (env : PlantEnv) (FalsiCondOutTemp : ℚ)
    (st : ChillerState) :
    (calcMid spec env FalsiCondOutTemp st).EvapMassFlowRate = env.evapInletMassFlow := rfl

lemma calcMid_capFT_nonneg (spec : ChillerSpec) (env : PlantEnv) (FalsiCondOutTemp : ℚ)
    (st : ChillerState) :
    0 ≤ (calcMid spec env FalsiCondOutTemp st).ChillerCapFT := by
  simp only [calcMid]
  split_ifs <;> simp

lemma calcMid_condAvg (spec : ChillerSpec) (env : PlantEnv) (FalsiCondOutTemp : ℚ)
    (st : ChillerState) :
    (calcMid spec env FalsiCondOutTemp st).ChillerCondAvgTemp =
      (if spec.HeatRecActive then
        (if st.QHeatRecovery + st.QCondenser > 0 then
          (st.QHeatRecovery * st.HeatRecOutletTemp +
            st.QCondenser * st.CondOutletTemp) / (st.QHeatRecovery + st.QCondenser)
         else FalsiCondOutTemp)
      else FalsiCondOutTemp) := by
  simp only [calcMid]
  split_ifs <;> simp

lemma calc_chain_condAvg (spec : ChillerSpec) (env : PlantEnv) (FalsiCondOutTemp : ℚ)
    (st : ChillerState) :
    (calcMid spec env FalsiCondOutTemp
      (calcPrologue spec env (calcZeroOutputs st))).ChillerCondAvgTemp =
      FalsiCondOutTemp := by
  rw [calcMid_condAvg]
  obtain ⟨-, hqc, -, hqhr, -⟩ := calcPrologue_frame spec env (calcZeroOutputs st)
  rw [hqc, hqhr, (calcZeroOutputs_fields st).2.1, (calcZeroOutputs_fields st).2.2.2.1]
  simp

lemma evapUnlocked_condAvg (spec : ChillerSpec) (env : PlantEnv) (st : ChillerState)
    (Cp A P : ℚ) (swtOn : Bool) :
    (evapUnlocked spec env st Cp A P swtOn).st.ChillerCondAvgTemp =
      st.ChillerCondAvgTemp := by
  have h := (evapUnlocked_condSide spec env st Cp A P swtOn).1
  simp only [condSideFields, Prod.mk.injEq] at h
  exact h.1

lemma evapLocked_condAvg (spec : ChillerSpec) (env : PlantEnv) (st : ChillerState)
    (Cp A L SP : ℚ) (swtOn : Bool) :
    (evapLocked spec env st Cp A L SP swtOn).st.ChillerCondAvgTemp =
      st.ChillerCondAvgTemp := by
  have h := evapLocked_condSide spec env st Cp A L SP swtOn
  simp only [condSideFields, Prod.mk.injEq] at h
  exact h.1

lemma calcTail_condAvg (spec : ChillerSpec) (env : PlantEnv) (CIT A COP L : ℚ)
    (eo : EvapOut) :
    (calcTail spec env CIT A COP L eo).state.ChillerCondAvgTemp =
      eo.st.ChillerCondAvgTemp :=
  (calcTail_frame spec env CIT A COP L eo).1

lemma calcTail_cycling (spec : ChillerSpec) (env : PlantEnv) (CIT A COP L : ℚ)
    (eo : EvapOut) :
    (calcTail spec env CIT A COP L eo).state.ChillerCyclingRatio =
      eo.st.ChillerCyclingRatio :=
  (calcTail_frame spec env CIT A COP L eo).2.1

lemma calcTail_qevapP (spec : ChillerSpec) (env : PlantEnv) (CIT A COP L : ℚ)
    (eo : EvapOut) :
    (calcTail spec env CIT A COP L eo).state.QEvaporator = eo.st.QEvaporator :=
  (calcTail_frame spec env CIT A COP L eo).2.2.1

lemma calcTail_falseLoad (spec : ChillerSpec) (env : PlantEnv) (CIT A COP L : ℚ)
    (eo : EvapOut) :
    (calcTail spec env CIT A COP L eo).state.ChillerFalseLoadRate =
      eo.st.ChillerFalseLoadRate :=
  (calcTail_frame spec env CIT A COP L eo).2.2.2.1

lemma calcTail_plrP (spec : ChillerSpec) (env : PlantEnv) (CIT A COP L : ℚ)
    (eo : EvapOut) :
    (calcTail spec env CIT A COP L eo).state.ChillerPartLoadRatio =
      eo.st.ChillerPartLoadRatio :=
  (calcTail_frame spec env CIT A COP L eo).2.2.2.2.1

lemma calcTail_evapFlowP (spec : ChillerSpec) (env : PlantEnv) (CIT A COP L : ℚ)
    (eo : EvapOut) :
    (calcTail spec env CIT A COP L eo).state.EvapMassFlowRate =
      eo.st.EvapMassFlowRate :=
  (calcTail_frame spec env CIT A COP L eo).2.2.2.2.2.1

lemma calcTail_condMassFlowP (spec : ChillerSpec) (env : PlantEnv) (CIT A COP L : ℚ)
    (eo : EvapOut) :
    (calcTail spec env CIT A COP L eo).state.CondMassFlowRate =
      eo.st.CondMassFlowRate :=
  (calcTail_frame spec env CIT A COP L eo).2.2.2.2.2.2.2.1

lemma calcTail_plrForFrac (spec : ChillerSpec) (env : PlantEnv) (CIT A COP L : ℚ)
    (eo : EvapOut) :
    (calcTail spec env CIT A COP L eo).trace.plrForFrac = eo.plrForFrac :=
  (calcTail_frame spec env CIT A COP L eo).2.2.2.2.2.2.2.2.1

lemma calcTail_fatal (spec : ChillerSpec) (env : PlantEnv) (CIT A COP L : ℚ)
    (eo : EvapOut) :
    (calcTail spec env CIT A COP L eo).trace.fatalErrors = 0 :=
  (calcTail_frame spec env CIT A COP L eo).2.2.2.2.2.2.2.2.2.1

lemma calcTail_myLoadP (spec : ChillerSpec) (env : PlantEnv) (CIT A COP L : ℚ)
    (eo : EvapOut) :
    (calcTail spec env CIT A COP L eo).myLoad = L :=
  (calcTail_frame spec env CIT A COP L eo).2.2.2.2.2.2.2.2.2.2

lemma dispatchFinish_condAvg (spec : ChillerSpec) (env : PlantEnv) (A COP L : ℚ)
    (eo : EvapOut) :
    (dispatchFinish spec env A COP L eo).state.ChillerCondAvgTemp =
      eo.st.ChillerCondAvgTemp := by
  simp only [dispatchFinish]
  split
  · rfl
  · exact calcTail_condAvg _ _ _ _ _ _ _

lemma dispatchFinish_fatal (spec : ChillerSpec) (env : PlantEnv) (A COP L : ℚ)
    (eo : EvapOut) :
    (dispatchFinish spec env A COP L eo).trace.fatalErrors = 0 := by
  simp only [dispatchFinish]
  split
  · rfl
  · exact calcTail_fatal _ _ _ _ _ _ _

lemma dispatchFinish_plrForFrac (spec : ChillerSpec) (env : PlantEnv) (A COP L : ℚ)
    (eo : EvapOut) :
    (dispatchFinish spec env A COP L eo).trace.plrForFrac = eo.plrForFrac := by
  simp only [dispatchFinish]
  split
  · rfl
  · exact calcTail_plrForFrac _ _ _ _ _ _ _

lemma dispatchFinish_cycling (spec : ChillerSpec) (env : PlantEnv) (A COP L : ℚ)
    (eo : EvapOut) :
    (dispatchFinish spec env A COP L eo).state.ChillerCyclingRatio =
      eo.st.ChillerCyclingRatio := by
  simp only [dispatchFinish]
  split
  · rfl
  · exact calcTail_cycling _ _ _ _ _ _ _

lemma dispatchFinish_divisors (spec : ChillerSpec) (env : PlantEnv) (A COP L : ℚ)
    (eo : EvapOut) (heo : ∀ d ∈ eo.divisors, d ≠ 0)
    (hmh : 0 ≤ env.heatRecMassFlowRate) (hcph : 0 < env.cpHeatRec)
    (hcpc : 0 < env.cpCond) (htol : 0 < env.massFlowTolerance) :
    ∀ d ∈ (dispatchFinish spec env A COP L eo).trace.divisors, d ≠ 0 := by
  simp only [dispatchFinish]
  split
  · intro d hd
    exact heo d (by simpa using hd)
  · exact calcTail_divisors _ _ _ _ _ _ _ heo hmh hcph hcpc htol

lemma dispatchFinish_qcond (spec : ChillerSpec) (env : PlantEnv) (A COP L : ℚ)
    (eo : EvapOut) (hHR : spec.HeatRecActive = false) (hA : 0 ≤ A)
    (hfrac : 0 ≤ eo.FRAC) (hcpf : 0 ≤ spec.CompPowerToCondenserFrac)
    (hab : eo.abortFlowZero = false) :
    (dispatchFinish spec env A COP L eo).state.QEvaporator +
      (dispatchFinish spec env A COP L eo).state.ChillerFalseLoadRate ≤
      (dispatchFinish spec env A COP L eo).state.QCondenser := by
  simp only [dispatchFinish, hab, Bool.false_eq_true, if_false]
  rw [calcTail_qevapP, calcTail_falseLoad]
  exact calcTail_qcond _ _ _ _ _ _ _ hHR hA hfrac hcpf

lemma dispatchFinish_locked_cycling (spec : ChillerSpec) (env : PlantEnv)
    (A COP L : ℚ) (s : ChillerState) (c a l q : ℚ) (sw : Bool)
    (hef : env.resolveEvapFlow env.evapInletMassFlow ≠ 0) :
    ∃ p, (dispatchFinish spec env A COP L
        (evapLocked spec env s c a l q sw)).trace.plrForFrac = some p ∧
      (dispatchFinish spec env A COP L
        (evapLocked spec env s c a l q sw)).state.ChillerCyclingRatio =
        (if p < spec.MinPartLoadRat then min 1 (p / spec.MinPartLoadRat) else 1) := by
  have hab : (evapLocked spec env s c a l q sw).abortFlowZero = false :=
    Bool.eq_false_iff.mpr (fun h => hef ((evapLocked_abort spec env s c a l q sw).mp h))
  obtain ⟨p, hp, hc⟩ := evapLocked_cycling spec env s c a l q sw hab
  refine ⟨p, ?_, ?_⟩
  · rw [dispatchFinish_plrForFrac]
    exact hp
  · rw [dispatchFinish_cycling]
    exact hc

lemma calcDispatch_condAvg (spec : ChillerSpec) (env : PlantEnv) (myLoad : ℚ)
    (st : ChillerState) :
    (calcDispatch spec env myLoad st).state.ChillerCondAvgTemp =
      st.ChillerCondAvgTemp := by
  simp only [calcDispatch]
  rw [dispatchFinish_condAvg]
  by_cases hfl : env.flowLocked = false
  · rw [if_pos hfl]
    simp only [evapUnlocked_condAvg]
  · rw [if_neg hfl]
    simp only [evapLocked_condAvg]

lemma calcDispatch_fatal (spec : ChillerSpec) (env : PlantEnv) (myLoad : ℚ)
    (st : ChillerState) :
    (calcDispatch spec env myLoad st).trace.fatalErrors = 0 := by
  simp only [calcDispatch]
  exact dispatchFinish_fatal _ _ _ _ _ _

lemma calcDispatch_qcond (spec : ChillerSpec) (env : PlantEnv) (myLoad : ℚ)
    (st : ChillerState) (hHR : spec.HeatRecActive = false)
    (hA : 0 ≤ fouledRefCap spec env * st.ChillerCapFT)
    (hcpf : 0 ≤ spec.CompPowerToCondenserFrac)
    (hef : env.resolveEvapFlow env.evapInletMassFlow ≠ 0) :
    (calcDispatch spec env myLoad st).state.QEvaporator +
      (calcDispatch spec env myLoad st).state.ChillerFalseLoadRate ≤
      (calcDispatch spec env myLoad st).state.QCondenser := by
  simp only [calcDispatch]
  refine dispatchFinish_qcond _ _ _ _ _ _ hHR hA ?_ hcpf ?_
  · by_cases hfl : env.flowLocked = false
    · rw [if_pos hfl, evapUnlocked_FRAC]
      norm_num
    · rw [if_neg hfl]
      exact evapLocked_FRAC_nonneg _ _ _ _ _ _ _ _
  · by_cases hfl : env.flowLocked = false
    · rw [if_pos hfl]
      exact evapUnlocked_abort _ _ _ _ _ _ _
    · rw [if_neg hfl]
      exact Bool.eq_false_iff.mpr
        (fun h => hef ((evapLocked_abort _ _ _ _ _ _ _ _).mp h))

lemma calcDispatch_divisors (spec : ChillerSpec) (env : PlantEnv) (myLoad : ℚ)
    (st : ChillerState) (hmh : 0 ≤ env.heatRecMassFlowRate)
    (hcph : 0 < env.cpHeatRec) (hcpc : 0 < env.cpCond)
    (htol : 0 < env.massFlowTolerance) :
    ∀ d ∈ (calcDispatch spec env myLoad st).trace.divisors, d ≠ 0 := by
  simp only [calcDispatch]
  refine dispatchFinish_divisors _ _ _ _ _ _ ?_ hmh hcph hcpc htol
  by_cases hfl : env.flowLocked = false
  · rw [if_pos hfl]
    exact evapUnlocked_divisors _ _ _ _ _ _ _
  · rw [if_neg hfl]
    exact evapLocked_divisors _ _ _ _ _ _ _ _ htol

lemma calcDispatch_locked_cycling (spec : ChillerSpec) (env : PlantEnv) (myLoad : ℚ)
    (st : ChillerState) (hlock : env.flowLocked = true)
    (hef : env.resolveEvapFlow env.evapInletMassFlow ≠ 0) :
    ∃ p, (calcDispatch spec env myLoad st).trace.plrForFrac = some p ∧
      (calcDispatch spec env myLoad st).state.ChillerCyclingRatio =
        (if p < spec.MinPartLoadRat then min 1 (p / spec.MinPartLoadRat) else 1) := by
  have hflf : (env.flowLocked = false) = False := by simp [hlock]
  simp only [calcDispatch, hflf, if_false]
  exact dispatchFinish_locked_cycling _ _ _ _ _ _ _ _ _ _ _ hef

lemma evapUnlocked_condMass (spec : ChillerSpec) (env : PlantEnv) (st : ChillerState)
    (Cp A P : ℚ) (swtOn : Bool) :
    (evapUnlocked spec env st Cp A P swtOn).st.CondMassFlowRate =
      st.CondMassFlowRate := by
  have h := (evapUnlocked_condSide spec env st Cp A P swtOn).1
  simp only [condSideFields, Prod.mk.injEq] at h
  exact h.2.2.2.1

lemma evapLocked_condMass (spec : ChillerSpec) (env : PlantEnv) (st : ChillerState)
    (Cp A L SP : ℚ) (swtOn : Bool) :
    (evapLocked spec env st Cp A L SP swtOn).st.CondMassFlowRate =
      st.CondMassFlowRate := by
  have h := evapLocked_condSide spec env st Cp A L SP swtOn
  simp only [condSideFields, Prod.mk.injEq] at h
  exact h.2.2.2.1

lemma dispatchFinish_severe (spec : ChillerSpec) (env : PlantEnv) (A COP L : ℚ)
    (eo : EvapOut) (hab : eo.abortFlowZero = false) :
    (dispatchFinish spec env A COP L eo).trace.severeErrors =
      (if eo.st.CondMassFlowRate > env.massFlowTolerance then 0 else 1) := by
  simp only [dispatchFinish, hab, Bool.false_eq_true, if_false]
  exact (calcTail_severe spec env env.condInletTemp A COP L eo).1

lemma calcDispatch_severe (spec : ChillerSpec) (env : PlantEnv) (myLoad : ℚ)
    (st : ChillerState)
    (hng : ¬ st.CondMassFlowRate > env.massFlowTolerance)
    (hef : env.resolveEvapFlow env.evapInletMassFlow ≠ 0) :
    (calcDispatch spec env myLoad st).trace.severeErrors = 1 := by
  simp only [calcDispatch]
  by_cases hfl : env.flowLocked = false
  · rw [if_pos hfl,
      dispatchFinish_severe _ _ _ _ _ _ (evapUnlocked_abort _ _ _ _ _ _ _),
      evapUnlocked_condMass]
    dsimp only
    exact if_neg hng
  · rw [if_neg hfl,
      dispatchFinish_severe _ _ _ _ _ _ (Bool.eq_false_iff.mpr
        (fun h => hef ((evapLocked_abort _ _ _ _ _ _ _ _).mp h))),
      evapLocked_condMass]
    dsimp only
    exact if_neg hng

/-- C5: when the requested load is nonnegative or the run flag is off, the
evaluator leaves power, evaporator heat, condenser heat and part-load
ratio all at zero. -/
theorem C5_idle_zero_outputs (spec : ChillerSpec) (env : PlantEnv)
    (myLoad : ℚ) (runFlag : Bool) (equipFlowCtrl : ℤ) (st : ChillerState)
    (FalsiCondOutTemp : ℚ) (h : myLoad ≥ 0 ∨ runFlag = false) :
    (CalcReformEIRChillerModel spec env myLoad runFlag equipFlowCtrl st
      FalsiCondOutTemp).state.Power = 0 ∧
    (CalcReformEIRChillerModel spec env myLoad runFlag equipFlowCtrl st
      FalsiCondOutTemp).state.QEvaporator = 0 ∧
    (CalcReformEIRChillerModel spec env myLoad runFlag equipFlowCtrl st
      FalsiCondOutTemp).state.QCondenser = 0 ∧
    (CalcReformEIRChillerModel spec env myLoad runFlag equipFlowCtrl st
      FalsiCondOutTemp).state.ChillerPartLoadRatio = 0 := by
  simp only [CalcReformEIRChillerModel]
  rw [if_pos h]
  repeat' split
  all_goals simp [calcZeroOutputs]

lemma calc_condAvg_eq_falsi (spec : ChillerSpec) (env : PlantEnv)
    (myLoad : ℚ) (runFlag : Bool) (equipFlowCtrl : ℤ) (st : ChillerState)
    (FalsiCondOutTemp : ℚ) (hl : myLoad < 0) (hr : runFlag = true)
    (hcf : ¬ env.resolveCondFlow spec.CondMassFlowRateMax < env.massFlowTolerance) :
    (CalcReformEIRChillerModel spec env myLoad runFlag equipFlowCtrl st
      FalsiCondOutTemp).state.ChillerCondAvgTemp = FalsiCondOutTemp := by
  simp only [CalcReformEIRChillerModel]
  rw [if_neg (calc_not_idle myLoad runFlag hl hr)]
  split
  · rename_i h
    rw [calcPrologue_condMassFlow] at h
    exact absurd h hcf
  · split
    · exact calc_chain_condAvg spec env FalsiCondOutTemp st
    · rw [calcDispatch_condAvg]
      exact calc_chain_condAvg spec env FalsiCondOutTemp st

/-- C2: in a completed non-idle evaluation without heat recovery, the
condenser heat flow is at least the evaporator heat flow plus the
false-load rate. -/
theorem C2_qcond_invariant (spec : ChillerSpec) (env : PlantEnv)
    (myLoad : ℚ) (runFlag : Bool) (equipFlowCtrl : ℤ) (st : ChillerState)
    (FalsiCondOutTemp : ℚ) (hl : myLoad < 0) (hr : runFlag = true)
    (hHR : spec.HeatRecActive = false)
    (hcap : 0 ≤ spec.RefCap) (hff : 0 ≤ env.foulingFactor)
    (hcpf : 0 ≤ spec.CompPowerToCondenserFrac)
    (hcf : ¬ env.resolveCondFlow spec.CondMassFlowRateMax < env.massFlowTolerance)
    (hnode : env.evapInletMassFlow ≠ 0)
    (hef : env.resolveEvapFlow env.evapInletMassFlow ≠ 0) :
    (CalcReformEIRChillerModel spec env myLoad runFlag equipFlowCtrl st
      FalsiCondOutTemp).state.QEvaporator +
      (CalcReformEIRChillerModel spec env myLoad runFlag equipFlowCtrl st
        FalsiCondOutTemp).state.ChillerFalseLoadRate ≤
      (CalcReformEIRChillerModel spec env myLoad runFlag equipFlowCtrl st
        FalsiCondOutTemp).state.QCondenser := by
  simp only [CalcReformEIRChillerModel]
  rw [if_neg (calc_not_idle myLoad runFlag hl hr),
    if_neg (show ¬ (calcPrologue spec env (calcZeroOutputs st)).CondMassFlowRate <
      env.massFlowTolerance from by rw [calcPrologue_condMassFlow]; exact hcf),
    if_neg (show ¬ (calcMid spec env FalsiCondOutTemp
        (calcPrologue spec env (calcZeroOutputs st))).EvapMassFlowRate = 0 from by
      rw [calcMid_evapMassFlow]; exact hnode)]
  refine calcDispatch_qcond _ _ _ _ hHR ?_ hcpf hef
  refine mul_nonneg ?_ (calcMid_capFT_nonneg _ _ _ _)
  unfold fouledRefCap
  split
  · exact mul_nonneg hcap hff
  · exact hcap

/-- C6: in a non-idle evaluation, a zero evaporator node mass flow makes
the evaluator return early with the load reported back as zero and all
heat and power outputs zero. -/
theorem C6_zero_evap_flow_abort (spec : ChillerSpec) (env : PlantEnv)
    (myLoad : ℚ) (runFlag : Bool) (equipFlowCtrl : ℤ) (st : ChillerState)
    (FalsiCondOutTemp : ℚ) (hl : myLoad < 0) (hr : runFlag = true)
    (hcf : ¬ env.resolveCondFlow spec.CondMassFlowRateMax < env.massFlowTolerance)
    (hnode : env.evapInletMassFlow = 0) :
    (CalcReformEIRChillerModel spec env myLoad runFlag equipFlowCtrl st
      FalsiCondOutTemp).myLoad = 0 ∧
    (CalcReformEIRChillerModel spec env myLoad runFlag equipFlowCtrl st
      FalsiCondOutTemp).state.Power = 0 ∧
    (CalcReformEIRChillerModel spec env myLoad runFlag equipFlowCtrl st
      FalsiCondOutTemp).state.QEvaporator = 0 ∧
    (CalcReformEIRChillerModel spec env myLoad runFlag equipFlowCtrl st
      FalsiCondOutTemp).state.QCondenser = 0 ∧
    (CalcReformEIRChillerModel spec env myLoad runFlag equipFlowCtrl st
      FalsiCondOutTemp).state.QHeatRecovery = 0 ∧
    (CalcReformEIRChillerModel spec env myLoad runFlag equipFlowCtrl st
      FalsiCondOutTemp).state.ChillerPartLoadRatio = 0 ∧
    (CalcReformEIRChillerModel spec env myLoad runFlag equipFlowCtrl st
      FalsiCondOutTemp).state.EvapMassFlowRate = 0 := by
  simp only [CalcReformEIRChillerModel]
  rw [if_neg (calc_not_idle myLoad runFlag hl hr),
    if_neg (show ¬ (calcPrologue spec env (calcZeroOutputs st)).CondMassFlowRate <
      env.massFlowTolerance from by rw [calcPrologue_condMassFlow]; exact hcf),
    if_pos (show (calcMid spec env FalsiCondOutTemp
        (calcPrologue spec env (calcZeroOutputs st))).EvapMassFlowRate = 0 from by
      rw [calcMid_evapMassFlow]; exact hnode)]
  obtain ⟨hP, hqc, hqe, hqhr, hplr, -⟩ :=
    calcMid_frame spec env FalsiCondOutTemp (calcPrologue spec env (calcZeroOutputs st))
  obtain ⟨hP2, hqc2, hqe2, hqhr2, hplr2, -⟩ := calcPrologue_frame spec env (calcZeroOutputs st)
  refine ⟨rfl, ?_, ?_, ?_, ?_, ?_, ?_⟩ <;>
    simp only [hP, hqc, hqe, hqhr, hplr, hP2, hqc2, hqe2, hqhr2, hplr2,
      (calcZeroOutputs_fields st).1, (calcZeroOutputs_fields st).2.1,
      (calcZeroOutputs_fields st).2.2.1, (calcZeroOutputs_fields st).2.2.2.1,
      (calcZeroOutputs_fields st).2.2.2.2.1, calcMid_evapMassFlow, hnode]

/-- C7: an at-or-below-tolerance condenser flow on a commanded-on chiller
never raises a fatal error; a strictly-below-tolerance flow returns
silently with no diagnostics at all and zero outputs; a flow exactly at
the tolerance continues the evaluation and emits one severe error at the
energy-balance step. -/
theorem C7_low_cond_flow_nonfatal (spec : ChillerSpec) (env : PlantEnv)
    (myLoad : ℚ) (runFlag : Bool) (equipFlowCtrl : ℤ) (st : ChillerState)
    (FalsiCondOutTemp : ℚ) (hl : myLoad < 0) (hr : runFlag = true)
    (hle : env.resolveCondFlow spec.CondMassFlowRateMax ≤ env.massFlowTolerance) :
    (CalcReformEIRChillerModel spec env myLoad runFlag equipFlowCtrl st
      FalsiCondOutTemp).trace.fatalErrors = 0 ∧
    (env.resolveCondFlow spec.CondMassFlowRateMax < env.massFlowTolerance →
      (CalcReformEIRChillerModel spec env myLoad runFlag equipFlowCtrl st
        FalsiCondOutTemp).trace.severeErrors = 0 ∧
      (CalcReformEIRChillerModel spec env myLoad runFlag equipFlowCtrl st
        FalsiCondOutTemp).trace.warnings = 0 ∧
      (CalcReformEIRChillerModel spec env myLoad runFlag equipFlowCtrl st
        FalsiCondOutTemp).state.Power = 0 ∧
      (CalcReformEIRChillerModel spec env myLoad runFlag equipFlowCtrl st
        FalsiCondOutTemp).state.QEvaporator = 0 ∧
      (CalcReformEIRChillerModel spec env myLoad runFlag equipFlowCtrl st
        FalsiCondOutTemp).state.QCondenser = 0) ∧
    (¬ env.resolveCondFlow spec.CondMassFlowRateMax < env.massFlowTolerance →
      env.evapInletMassFlow ≠ 0 →
      env.resolveEvapFlow env.evapInletMassFlow ≠ 0 →
      (CalcReformEIRChillerModel spec env myLoad runFlag equipFlowCtrl st
        FalsiCondOutTemp).trace.severeErrors = 1) := by
  refine ⟨?_, ?_, ?_⟩
  · simp only [CalcReformEIRChillerModel]
    rw [if_neg (calc_not_idle myLoad runFlag hl hr)]
    split
    · rfl
    · split
      · rfl
      · exact calcDispatch_fatal _ _ _ _
  · intro hlt
    simp only [CalcReformEIRChillerModel]
    rw [if_neg (calc_not_idle myLoad runFlag hl hr),
      if_pos (show (calcPrologue spec env (calcZeroOutputs st)).CondMassFlowRate <
        env.massFlowTolerance from by rw [calcPrologue_condMassFlow]; exact hlt)]
    obtain ⟨hP, hqc, hqe, -⟩ := calcPrologue_frame spec env (calcZeroOutputs st)
    refine ⟨rfl, rfl, ?_, ?_, ?_⟩ <;>
      simp only [hP, hqc, hqe, (calcZeroOutputs_fields st).1,
        (calcZeroOutputs_fields st).2.1, (calcZeroOutputs_fields st).2.2.1]
  · intro hge hnode hef
    simp only [CalcReformEIRChillerModel]
    rw [if_neg (calc_not_idle myLoad runFlag hl hr),
      if_neg (show ¬ (calcPrologue spec env (calcZeroOutputs st)).CondMassFlowRate <
        env.massFlowTolerance from by rw [calcPrologue_condMassFlow]; exact hge),
      if_neg (show ¬ (calcMid spec env FalsiCondOutTemp
          (calcPrologue spec env (calcZeroOutputs st))).EvapMassFlowRate = 0 from by
        rw [calcMid_evapMassFlow]; exact hnode)]
    refine calcDispatch_severe _ _ _ _ ?_ hef
    rw [(calcMid_frame spec env FalsiCondOutTemp
        (calcPrologue spec env (calcZeroOutputs st))).2.2.2.2.2.2.2.2.2,
      calcPrologue_condMassFlow]
    exact fun hgt => absurd hle (not_le.mpr hgt)

/-- C9: in a completed non-idle evaluation with the plant flows locked,
the stored cycling ratio follows the min-part-load-ratio rule applied to
the part-load ratio recorded for the FRAC computation. -/
theorem C9_locked_cycling_ratio (spec : ChillerSpec) (env : PlantEnv)
    (myLoad : ℚ) (runFlag : Bool) (equipFlowCtrl : ℤ) (st : ChillerState)
    (FalsiCondOutTemp : ℚ) (hl : myLoad < 0) (hr : runFlag = true)
    (hlock : env.flowLocked = true)
    (hcf : ¬ env.resolveCondFlow spec.CondMassFlowRateMax < env.massFlowTolerance)
    (hnode : env.evapInletMassFlow ≠ 0)
    (hef : env.resolveEvapFlow env.evapInletMassFlow ≠ 0) :
    ∃ p, (CalcReformEIRChillerModel spec env myLoad runFlag equipFlowCtrl st
        FalsiCondOutTemp).trace.plrForFrac = some p ∧
      (CalcReformEIRChillerModel spec env myLoad runFlag equipFlowCtrl st
        FalsiCondOutTemp).state.ChillerCyclingRatio =
        (if p < spec.MinPartLoadRat then min 1 (p / spec.MinPartLoadRat) else 1) := by
  simp only [CalcReformEIRChillerModel]
  rw [if_neg (calc_not_idle myLoad runFlag hl hr),
    if_neg (show ¬ (calcPrologue spec env (calcZeroOutputs st)).CondMassFlowRate <
      env.massFlowTolerance from by rw [calcPrologue_condMassFlow]; exact hcf),
    if_neg (show ¬ (calcMid spec env FalsiCondOutTemp
        (calcPrologue spec env (calcZeroOutputs st))).EvapMassFlowRate = 0 from by
      rw [calcMid_evapMassFlow]; exact hnode)]
  exact calcDispatch_locked_cycling _ _ _ _ hlock hef

/-- C10: every divisor recorded on any path through the single-point
evaluator (including the heat-recovery split) is nonzero, given positive
specific heats, a nonnegative heat-recovery flow and a positive mass-flow
tolerance. -/
theorem C10_no_division_by_zero (spec : ChillerSpec) (env : PlantEnv)
    (myLoad : ℚ) (runFlag : Bool) (equipFlowCtrl : ℤ) (st : ChillerState)
    (FalsiCondOutTemp : ℚ) (hmh : 0 ≤ env.heatRecMassFlowRate)
    (hcph : 0 < env.cpHeatRec) (hcpc : 0 < env.cpCond)
    (htol : 0 < env.massFlowTolerance) :
    ∀ d ∈ (CalcReformEIRChillerModel spec env myLoad runFlag equipFlowCtrl st
      FalsiCondOutTemp).trace.divisors, d ≠ 0 := by
  intro d hd
  simp only [CalcReformEIRChillerModel] at hd
  repeat' split at hd
  all_goals first
  | exact calcDispatch_divisors _ _ _ _ hmh hcph hcpc htol _ hd
  | simp [CalcTrace.empty] at hd

/-- C1 (amended): the solver invokes the root finder exactly when the
probe outputs bracket (output at Tmin above Tmin, output at Tmax below
Tmax); otherwise it evaluates once at the midpoint of the two probe
output temperatures (not of the interval [Tmin, Tmax]) and once more at
the output temperature that evaluation produced. -/
theorem C1_solver_bracket_decision (spec : ChillerSpec) (env : PlantEnv)
    (oracle : RootFinderOracle) (myLoad : ℚ) (runFlag firstIteration : Bool)
    (equipFlowCtrl : ℤ) (st : ChillerState) (r : ControlResult)
    (hl : myLoad < 0) (hr : runFlag = true)
    (hres : r = ControlReformEIRChillerModel spec env oracle myLoad runFlag
      firstIteration equipFlowCtrl st) :
    (r.condTempMin > r.Tmin ∧ r.condTempMax < r.Tmax →
      r.path = some (SolverPath.rootFind (1/10000) 500 oracle.solFla)) ∧
    (¬ (r.condTempMin > r.Tmin ∧ r.condTempMax < r.Tmax) →
      ∃ t2, r.path = some (SolverPath.degenerate
          ((r.condTempMin + r.condTempMax) / 2) t2) ∧
        r.evalTemps = [r.Tmin, r.Tmax, (r.condTempMin + r.condTempMax) / 2, t2]) := by
  subst hres
  simp only [ControlReformEIRChillerModel]
  rw [if_neg (calc_not_idle myLoad runFlag hl hr)]
  cases hplt : spec.PartLoadCurveType <;>
    dsimp only <;>
    (repeat' split) <;>
    first
    | exact ⟨fun _ => rfl, fun hnb => absurd (by assumption) hnb⟩
    | exact ⟨fun hb => absurd hb (by assumption), fun _ => ⟨_, rfl, rfl⟩⟩

/-- C3: the effective condenser temperature used for the curve lookups
always equals the assumed condenser outlet temperature passed into the
evaluation, even when heat recovery is active and the previous call left
nonzero recovered heat and condenser heat: the blend branch reads the
report fields that were zeroed earlier in the same call, so it never
fires. -/
theorem C3_effective_condenser_temp_is_assumed (spec : ChillerSpec) (env : PlantEnv)
    (myLoad : ℚ) (runFlag : Bool) (equipFlowCtrl : ℤ) (st : ChillerState)
    (FalsiCondOutTemp : ℚ) (hl : myLoad < 0) (hr : runFlag = true)
    (hcf : ¬ env.resolveCondFlow spec.CondMassFlowRateMax < env.massFlowTolerance)
    (hhr : spec.HeatRecActive = true)
    (hq : st.QHeatRecovery + st.QCondenser > 0) :
    (CalcReformEIRChillerModel spec env myLoad runFlag equipFlowCtrl st
      FalsiCondOutTemp).state.ChillerCondAvgTemp = FalsiCondOutTemp :=
  calc_condAvg_eq_falsi spec env myLoad runFlag equipFlowCtrl st FalsiCondOutTemp hl hr hcf

/-- C4 (amended): the boundary validator never changes any physical
result field of the chiller state; it does, however, overwrite the three
stored curve outputs and the diagnostic counters. -/
theorem C4_validator_preserves_physical_fields (spec : ChillerSpec) (env : PlantEnv)
    (firstIteration : Bool) (st : ChillerState) :
    physFields (CheckMinMaxCurveBoundaries spec env firstIteration st).1 =
      physFields st :=
  CheckMinMaxCurveBoundaries_phys spec env firstIteration st

/-- C4 counterexample to the literal claim: on a converged state the
validator overwrites the stored capacity-curve output, and running it
twice produces different diagnostics (one-time versus recurring). -/
theorem C4_validator_mutation_counterexample :
    (CheckMinMaxCurveBoundaries negSpec negEnv false testState0).1.ChillerCapFT ≠
      testState0.ChillerCapFT ∧
    (CheckMinMaxCurveBoundaries negSpec negEnv false
        (CheckMinMaxCurveBoundaries negSpec negEnv false testState0).1).2 ≠
      (CheckMinMaxCurveBoundaries negSpec negEnv false testState0).2 := by
  norm_num [CheckMinMaxCurveBoundaries, checkCapftXRange, checkEirftXRange,
    checkCapftYRange, checkEirftYRange, checkEirfplrTRange, checkEirfplrPLRRange,
    checkCapftNeg, checkEirftNeg, checkEirfplrNeg, negSpec, negEnv, testSpec,
    testEnv, testState0]

/-- C8 (amended): recovered heat is bounded by the configured capacity
limit, is bounded by the incoming condenser heat under the setpoint
policy, and is exactly zero whenever the inlet-limit schedule reports an
exceeded inlet temperature. -/
theorem C8_heat_recovery_bounds (spec : ChillerSpec) (env : PlantEnv)
    (QCond CondMassFlow CondInletTemp : ℚ)
    (hlim : 0 ≤ spec.HeatRecMaxCapacityLimit) (hq : 0 ≤ QCond) :
    (ReformEIRChillerHeatRecovery spec env QCond CondMassFlow
      CondInletTemp).QHeatRec ≤ spec.HeatRecMaxCapacityLimit ∧
    (spec.hasHeatRecSetPointNode = true →
      (ReformEIRChillerHeatRecovery spec env QCond CondMassFlow
        CondInletTemp).QHeatRec ≤ QCond) ∧
    (spec.hasHeatRecInletLimitSched = true →
      env.heatRecInletLimitSchedValue < env.heatRecInletTemp →
      (ReformEIRChillerHeatRecovery spec env QCond CondMassFlow
        CondInletTemp).QHeatRec = 0) :=
  ⟨ReformEIRChillerHeatRecovery_le_limit spec env QCond CondMassFlow CondInletTemp hlim,
   fun hsp => ReformEIRChillerHeatRecovery_setpoint_le_total spec env QCond
     CondMassFlow CondInletTemp hsp hq,
   fun hs hl2 => ReformEIRChillerHeatRecovery_inlet_limit_zero spec env QCond
     CondMassFlow CondInletTemp hs hl2⟩

theorem C8_heat_recovery_bounds_witness :
    (0 ≤ hrSpec.HeatRecMaxCapacityLimit) ∧
    ((ReformEIRChillerHeatRecovery hrSpec testEnv 25 1 20).QHeatRec ≤
      hrSpec.HeatRecMaxCapacityLimit ∧
    (hrSpec.hasHeatRecSetPointNode = true →
      (ReformEIRChillerHeatRecovery hrSpec testEnv 25 1 20).QHeatRec ≤ 25) ∧
    (hrSpec.hasHeatRecInletLimitSched = true →
      testEnv.heatRecInletLimitSchedValue < testEnv.heatRecInletTemp →
      (ReformEIRChillerHeatRecovery hrSpec testEnv 25 1 20).QHeatRec = 0)) :=
  ⟨by norm_num [ChillerSpec.HeatRecMaxCapacityLimit, hrSpec, testSpec],
   C8_heat_recovery_bounds hrSpec testEnv 25 1 20
     (by norm_num [ChillerSpec.HeatRecMaxCapacityLimit, hrSpec, testSpec])
     (by norm_num)⟩

theorem C8_blend_exceeds_total_counterexample :
    (ReformEIRChillerHeatRecovery blendSpec testEnv 10 1 100).QHeatRec > 10 := by
  norm_num [ReformEIRChillerHeatRecovery, ChillerSpec.HeatRecMaxCapacityLimit,
    blendSpec, testSpec, testEnv]

theorem C2_qcond_invariant_witness :
    ((-50 : ℚ) < 0) ∧
    (CalcReformEIRChillerModel testSpec testEnv (-50) true 0 testState0
      25).state.QEvaporator +
      (CalcReformEIRChillerModel testSpec testEnv (-50) true 0 testState0
        25).state.ChillerFalseLoadRate ≤
      (CalcReformEIRChillerModel testSpec testEnv (-50) true 0 testState0
        25).state.QCondenser :=
  ⟨by norm_num,
   C2_qcond_invariant testSpec testEnv (-50) true 0 testState0 25 (by norm_num) rfl rfl
     (by norm_num [testSpec]) (by norm_num [testEnv]) (by norm_num [testSpec])
     (by norm_num [testEnv, testSpec]) (by norm_num [testEnv]) (by norm_num [testEnv])⟩

theorem C2_heat_recovery_counterexample :
    (CalcReformEIRChillerModel hrSpec testEnv (-50) true 0 testState0
      25).state.QCondenser <
      (CalcReformEIRChillerModel hrSpec testEnv (-50) true 0 testState0
        25).state.QEvaporator +
      (CalcReformEIRChillerModel hrSpec testEnv (-50) true 0 testState0
        25).state.ChillerFalseLoadRate := by
  norm_num [CalcReformEIRChillerModel, calcZeroOutputs, calcPrologue, calcMid,
    calcDispatch, dispatchFinish, calcTail, evapUnlocked, chillerPower, fsign,
    resolvedEvapSetPoint, evapSetPointFinal, fouledRefCap, fouledRefCOP,
    foulingOnFor, swtOnFor, ReformEIRChillerHeatRecovery,
    ChillerSpec.HeatRecMaxCapacityLimit, CalcTrace.empty, hrSpec, testSpec,
    testEnv, testState0, min_def, max_def, abs]

theorem C3_effective_condenser_temp_is_assumed_witness :
    (hrState.QHeatRecovery + hrState.QCondenser > 0) ∧
    (CalcReformEIRChillerModel hrSpec testEnv (-50) true 0 hrState
      25).state.ChillerCondAvgTemp = 25 :=
  ⟨by norm_num [hrState, testState0],
   C3_effective_condenser_temp_is_assumed hrSpec testEnv (-50) true 0 hrState 25
     (by norm_num) rfl (by norm_num [testEnv, hrSpec, testSpec]) rfl
     (by norm_num [hrState, testState0])⟩

theorem C5_idle_zero_outputs_witness :
    ((0 : ℚ) ≥ 0) ∧
    (CalcReformEIRChillerModel testSpec testEnv 0 true 0 testState0
      25).state.Power = 0 ∧
    (CalcReformEIRChillerModel testSpec testEnv 0 true 0 testState0
      25).state.QEvaporator = 0 ∧
    (CalcReformEIRChillerModel testSpec testEnv 0 true 0 testState0
      25).state.QCondenser = 0 ∧
    (CalcReformEIRChillerModel testSpec testEnv 0 true 0 testState0
      25).state.ChillerPartLoadRatio = 0 :=
  ⟨by norm_num,
   C5_idle_zero_outputs testSpec testEnv 0 true 0 testState0 25 (Or.inl (by norm_num))⟩

theorem C6_zero_evap_flow_abort_witness :
    (zeroEvapNodeEnv.evapInletMassFlow = 0) ∧
    (CalcReformEIRChillerModel testSpec zeroEvapNodeEnv (-50) true 0 testState0
      25).myLoad = 0 ∧
    (CalcReformEIRChillerModel testSpec zeroEvapNodeEnv (-50) true 0 testState0
      25).state.Power = 0 ∧
    (CalcReformEIRChillerModel testSpec zeroEvapNodeEnv (-50) true 0 testState0
      25).state.QEvaporator = 0 ∧
    (CalcReformEIRChillerModel testSpec zeroEvapNodeEnv (-50) true 0 testState0
      25).state.QCondenser = 0 ∧
    (CalcReformEIRChillerModel testSpec zeroEvapNodeEnv (-50) true 0 testState0
      25).state.QHeatRecovery = 0 ∧
    (CalcReformEIRChillerModel testSpec zeroEvapNodeEnv (-50) true 0 testState0
      25).state.ChillerPartLoadRatio = 0 ∧
    (CalcReformEIRChillerModel testSpec zeroEvapNodeEnv (-50) true 0 testState0
      25).state.EvapMassFlowRate = 0 :=
  ⟨rfl,
   (C6_zero_evap_flow_abort testSpec zeroEvapNodeEnv (-50) true 0 testState0 25
     (by norm_num) rfl (by norm_num [zeroEvapNodeEnv, testEnv, testSpec]) rfl).1,
   (C6_zero_evap_flow_abort testSpec zeroEvapNodeEnv (-50) true 0 testState0 25
     (by norm_num) rfl (by norm_num [zeroEvapNodeEnv, testEnv, testSpec]) rfl).2⟩

theorem C6_availcap_counterexample :
    fouledRefCap testSpec zeroCapEnv *
      (calcMid testSpec zeroCapEnv 25 (calcPrologue testSpec zeroCapEnv
        (calcZeroOutputs testState0))).ChillerCapFT ≤ 0 ∧
    (CalcReformEIRChillerModel testSpec zeroCapEnv (-50) true 0 testState0
      25).myLoad ≠ 0 := by
  norm_num [CalcReformEIRChillerModel, calcZeroOutputs, calcPrologue, calcMid,
    calcDispatch, dispatchFinish, calcTail, evapUnlocked, chillerPower, fsign,
    resolvedEvapSetPoint, evapSetPointFinal, fouledRefCap, fouledRefCOP,
    foulingOnFor, swtOnFor, ReformEIRChillerHeatRecovery,
    ChillerSpec.HeatRecMaxCapacityLimit, CalcTrace.empty, zeroCapEnv, testSpec,
    testEnv, testState0, min_def, max_def, abs]

theorem C7_low_cond_flow_nonfatal_witness :
    (zeroCondEnv.resolveCondFlow testSpec.CondMassFlowRateMax ≤
      zeroCondEnv.massFlowTolerance) ∧
    (CalcReformEIRChillerModel testSpec zeroCondEnv (-50) true 0 testState0
      25).trace.fatalErrors = 0 ∧
    (¬ tolCondEnv.resolveCondFlow testSpec.CondMassFlowRateMax <
      tolCondEnv.massFlowTolerance) ∧
    (CalcReformEIRChillerModel testSpec tolCondEnv (-50) true 0 testState0
      25).trace.severeErrors = 1 :=
  ⟨by norm_num [zeroCondEnv, testEnv, testSpec],
   (C7_low_cond_flow_nonfatal testSpec zeroCondEnv (-50) true 0 testState0 25
     (by norm_num) rfl (by norm_num [zeroCondEnv, testEnv, testSpec])).1,
   by norm_num [tolCondEnv, testEnv, testSpec],
   (C7_low_cond_flow_nonfatal testSpec tolCondEnv (-50) true 0 testState0 25
       (by norm_num) rfl (by norm_num [tolCondEnv, testEnv, testSpec])).2.2
     (by norm_num [tolCondEnv, testEnv, testSpec])
     (by norm_num [tolCondEnv, testEnv]) (by norm_num [tolCondEnv, testEnv])⟩

theorem C7_no_fatal_counterexample :
    (CalcReformEIRChillerModel testSpec zeroCondEnv (-50) true 0 testState0
      25).trace.fatalErrors = 0 ∧
    (CalcReformEIRChillerModel testSpec zeroCondEnv (-50) true 0 testState0
      25).trace.severeErrors = 0 ∧
    (CalcReformEIRChillerModel testSpec zeroCondEnv (-50) true 0 testState0
      25).trace.warnings = 0 ∧
    (CalcReformEIRChillerModel testSpec tolCondEnv (-50) true 0 testState0
      25).trace.fatalErrors = 0 ∧
    (CalcReformEIRChillerModel testSpec tolCondEnv (-50) true 0 testState0
      25).trace.severeErrors = 1 := by
  norm_num [CalcReformEIRChillerModel, calcZeroOutputs, calcPrologue, calcMid,
    calcDispatch, dispatchFinish, calcTail, evapUnlocked, chillerPower, fsign,
    resolvedEvapSetPoint, evapSetPointFinal, fouledRefCap, fouledRefCOP,
    foulingOnFor, swtOnFor, ReformEIRChillerHeatRecovery,
    ChillerSpec.HeatRecMaxCapacityLimit, CalcTrace.empty, zeroCondEnv,
    tolCondEnv, testSpec, testEnv, testState0, min_def, max_def, abs]

theorem C9_locked_cycling_ratio_witness :
    (lockedEnv.flowLocked = true) ∧
    ∃ p, (CalcReformEIRChillerModel testSpec lockedEnv (-50) true 0 testState0
        25).trace.plrForFrac = some p ∧
      (CalcReformEIRChillerModel testSpec lockedEnv (-50) true 0 testState0
        25).state.ChillerCyclingRatio =
        (if p < testSpec.MinPartLoadRat then min 1 (p / testSpec.MinPartLoadRat)
         else 1) :=
  ⟨rfl,
   C9_locked_cycling_ratio testSpec lockedEnv (-50) true 0 testState0 25
     (by norm_num) rfl rfl (by norm_num [lockedEnv, testEnv, testSpec])
     (by norm_num [lockedEnv, testEnv]) (by norm_num [lockedEnv, testEnv])⟩

theorem C9_unlocked_cycling_counterexample :
    (CalcReformEIRChillerModel testSpec testEnv (-50) true 0 testState0
      25).state.ChillerPartLoadRatio < testSpec.MinPartLoadRat ∧
    (CalcReformEIRChillerModel testSpec testEnv (-50) true 0 testState0
      25).state.ChillerCyclingRatio ≠
      min 1 ((CalcReformEIRChillerModel testSpec testEnv (-50) true 0 testState0
        25).state.ChillerPartLoadRatio / testSpec.MinPartLoadRat) := by
  norm_num [CalcReformEIRChillerModel, calcZeroOutputs, calcPrologue, calcMid,
    calcDispatch, dispatchFinish, calcTail, evapUnlocked, chillerPower, fsign,
    resolvedEvapSetPoint, evapSetPointFinal, fouledRefCap, fouledRefCOP,
    foulingOnFor, swtOnFor, CalcTrace.empty, testSpec, testEnv, testState0,
    min_def, max_def, abs]

theorem C10_no_division_by_zero_witness :
    (0 < testEnv.cpHeatRec) ∧
    ∀ d ∈ (CalcReformEIRChillerModel testSpec testEnv (-50) true 0 testState0
      25).trace.divisors, d ≠ 0 :=
  ⟨by norm_num [testEnv],
   C10_no_division_by_zero testSpec testEnv (-50) true 0 testState0 25
     (by norm_num [testEnv]) (by norm_num [testEnv]) (by norm_num [testEnv])
     (by norm_num [testEnv])⟩

theorem C1_solver_bracket_decision_witness :
    ((-50 : ℚ) < 0) ∧
    ((cW.condTempMin > cW.Tmin ∧ cW.condTempMax < cW.Tmax →
       cW.path = some (SolverPath.rootFind (1/10000) 500 oracle0.solFla)) ∧
     (¬ (cW.condTempMin > cW.Tmin ∧ cW.condTempMax < cW.Tmax) →
       ∃ t2, cW.path = some (SolverPath.degenerate
           ((cW.condTempMin + cW.condTempMax) / 2) t2) ∧
         cW.evalTemps = [cW.Tmin, cW.Tmax, (cW.condTempMin + cW.condTempMax) / 2,
           t2])) :=
  ⟨by norm_num,
   C1_solver_bracket_decision testSpec testEnv oracle0 (-50) true false 0
     testState0 cW (by norm_num) rfl rfl⟩

theorem C1_midpoint_counterexample :
    (ControlReformEIRChillerModel degSpec testEnv oracle0 (-50) true false 0
      testState0).Tmin = 0 ∧
    (ControlReformEIRChillerModel degSpec testEnv oracle0 (-50) true false 0
      testState0).Tmax = 10 ∧
    (ControlReformEIRChillerModel degSpec testEnv oracle0 (-50) true false 0
      testState0).path = some (SolverPath.degenerate 45 45) ∧
    ((45 : ℚ) ≠ (0 + 10) / 2) := by
  norm_num [ControlReformEIRChillerModel, CondOutTempResidual,
    CalcReformEIRChillerModel, calcZeroOutputs, calcPrologue, calcMid,
    calcDispatch, dispatchFinish, calcTail, evapUnlocked, chillerPower, fsign,
    resolvedEvapSetPoint, evapSetPointFinal, fouledRefCap, fouledRefCOP,
    foulingOnFor, swtOnFor, ReformEIRChillerHeatRecovery,
    ChillerSpec.HeatRecMaxCapacityLimit, CheckMinMaxCurveBoundaries,
    checkCapftXRange, checkEirftXRange, checkCapftYRange, checkEirftYRange,
    checkEirfplrTRange, checkEirfplrPLRRange, checkCapftNeg, checkEirftNeg,
    checkEirfplrNeg, CalcTrace.empty, degSpec, oracle0, testSpec, testEnv,
    testState0, min_def, max_def, abs]

end ChillerReformulatedEIR
